import Mathlib

/-!
Verification of the reflective dependency-injection container
(`injection-js`).  The definitions below are a shallow embedding of the
sources: `reflective_injector.ts` (class `ReflectiveInjector_`),
`reflective_key.ts` (classes `ReflectiveKey` and `KeyRegistry`) and
`null_injector.ts` (class `NullInjector`).  JavaScript objects are
modelled by an explicit value type whose reference identity is an
allocation counter, JavaScript exceptions by an error type returned in
an `Except`-like result, and the mutable container state (cache slots,
construction counters, the global key registry) by explicit state
passing.  The handful of collaborator modules that are not part of the
provided sources (`stringify`, the error constructors of
`reflective_errors.ts`, the exported sentinels of `injector.ts`) are
modelled from the specification and marked as such in their doc
comments.
-/

namespace InjectionJs

/-- A JavaScript value used as a provider token: a class/object reference
(identity given by `uid`), a string, a number, a boolean, `null` or
`undefined`.  Token equality in the source is JavaScript identity
(`Map` lookup, `===`), which is decidable equality here. -/
inductive Token where
  | obj (uid : Nat) (name : String)
  | str (s : String)
  | num (n : Int)
  | boolTok (b : Bool)
  | nullTok
  | undefTok
deriving DecidableEq, Repr

/-- JavaScript truthiness of a token, as tested by `if (!token)` in the
`ReflectiveKey` constructor: objects are truthy, `""`, `0`, `false`,
`null` and `undefined` are falsy. -/
def Token.truthy : Token → Bool
  | .obj _ _ => true
  | .str s => decide (s ≠ "")
  | .num n => decide (n ≠ 0)
  | .boolTok b => b
  | .nullTok => false
  | .undefTok => false

/-- Modelled from the spec: `stringify` (`src/lib/util/stringify.ts` is
not among the provided sources): a stable human-readable rendering of a
token used for display names and error messages. -/
def stringify : Token → String
  | .obj _ name => name
  | .str s => s
  | .num n => toString n
  | .boolTok b => toString b
  | .nullTok => "null"
  | .undefTok => "undefined"

/-- The token of the `Injector` class itself, registered at module load
by `const INJECTOR_KEY = ReflectiveKey.get(Injector)` in
`reflective_injector.ts`.  It is the first token entered into the
global key registry in this model, so its key id is `0`. -/
def injectorToken : Token := .obj 0 "Injector"

/-- A JavaScript error value.  `plainError` is a bare `new Error(msg)`.
The dependency-injection error shapes (`noProvider`,
`cyclicDependency`, `instantiation`) carry the accumulated chain of
provider key ids with display names, innermost first; they are modelled
from the spec because `reflective_errors.ts` is not among the provided
sources. -/
inductive JsError where
  | plainError (message : String)
  | noProvider (keys : List (Nat × String))
  | cyclicDependency (keys : List (Nat × String))
  | instantiation (origMessage : String) (origStack : String) (keys : List (Nat × String))
  | outOfBounds (index : Int)
deriving DecidableEq, Repr

/-- A unique key for a token: `ReflectiveKey` from `reflective_key.ts`,
with fields `token`, `id` and `displayName`. -/
structure ReflectiveKey where
  token : Token
  id : Nat
  displayName : String
deriving DecidableEq, Repr

/-- The key chain entry an error records for a key (its id and display
name). -/
def ReflectiveKey.chainEntry (k : ReflectiveKey) : Nat × String :=
  (k.id, k.displayName)

/-- The `ReflectiveKey` constructor: `if (!token) throw new Error
("Token must be defined!")`, otherwise store the token, the id and
`displayName = stringify(token)`.  Note that the error raised for a
falsy token is a plain `Error` with a fixed message; it does not carry
the offending token. -/
def mkReflectiveKey (token : Token) (id : Nat) : Except JsError ReflectiveKey :=
  if !token.truthy then .error (.plainError "Token must be defined!")
  else .ok ⟨token, id, stringify token⟩

/-- The internal map of the global `KeyRegistry`: an insertion-ordered
association list keyed by token identity (the source uses a JavaScript
`Map<any, ReflectiveKey>`, which is identity-keyed and
insertion-ordered). -/
abbrev KeyRegistry := List (Token × ReflectiveKey)

/-- `allKeys.has(token) / allKeys.get(token)`: identity-based lookup. -/
def KeyRegistry.find : KeyRegistry → Token → Option ReflectiveKey
  | [], _ => none
  | (t, k) :: rest, tok => if tok = t then some k else KeyRegistry.find rest tok

/-- `numberOfKeys`: the size of the map.  The registry is only ever
extended by `KeyRegistry.get`, which never inserts a token twice, so
the list length equals the map size. -/
def KeyRegistry.numberOfKeys (r : KeyRegistry) : Nat := r.length

/-- The argument of `KeyRegistry.get`: an arbitrary token, or a value
that is already a `ReflectiveKey` instance (the source tests
`token instanceof ReflectiveKey`). -/
inductive RegArg where
  | tok (t : Token)
  | key (k : ReflectiveKey)
deriving DecidableEq, Repr

/-- `KeyRegistry.get` from `reflective_key.ts`: a key argument is
returned unchanged; a known token returns its stored key; an unknown
token is assigned a new key whose id is the current number of keys
(`new ReflectiveKey(token, ReflectiveKey.numberOfKeys)`, where
`ReflectiveKey.numberOfKeys` reads the same global registry), and the
pair is stored.  Constructing the key can throw (falsy token).  The
possibly-extended registry is returned alongside the key. -/
def KeyRegistry.get (r : KeyRegistry) (arg : RegArg) : Except JsError (ReflectiveKey × KeyRegistry) :=
  match arg with
  | .key k => .ok (k, r)
  | .tok t =>
    match r.find t with
    | some k => .ok (k, r)
    | none =>
      match mkReflectiveKey t r.numberOfKeys with
      | .error e => .error e
      | .ok newKey => .ok (newKey, r ++ [(t, newKey)])

/-- The global registry as it stands after `reflective_injector.ts` has
been loaded: the `Injector` token is registered (id `0`). -/
def initRegistry : KeyRegistry := [(injectorToken, ⟨injectorToken, 0, "Injector"⟩)]

/-- `ReflectiveKey.get(token)` resolves forward references first;
`resolveForwardRef` is the identity on every value that is not a
forward reference, and forward references are not part of this model,
so the call goes straight to the registry. -/
def reflectiveKeyGet (r : KeyRegistry) (arg : RegArg) : Except JsError (ReflectiveKey × KeyRegistry) :=
  KeyRegistry.get r arg

/-- A registry is well formed when its keys were assigned dense,
append-only ids in registration order (the key stored at position `i`
has id `i`), each entry stores a key for its own token, and no token
occurs twice. -/
def KeyRegistry.wf (r : KeyRegistry) : Prop :=
  (∀ (i : Nat) (e : Token × ReflectiveKey),
      r.get? i = some e → e.2.id = i ∧ e.2.token = e.1) ∧
    r.Pairwise (fun a b => a.1 ≠ b.1)

/-- A JavaScript runtime value.  `ref` is an object reference whose
identity is an allocation number, so reference equality (`===`) is
equality of this type.  `arrV` is an array (used for multi-provider
results).  `injectorRef` is a reference to a container (frame id).
`sentinelRTIF` is the module-local `const THROW_IF_NOT_FOUND = {}` of
`reflective_injector.ts`; `sentinelCTIF` is the distinct
`THROW_IF_NOT_FOUND` object of `injector_compatibility.ts` which
`null_injector.ts` imports and compares against.  Both are ordinary
(empty) objects that may flow around as values. -/
inductive Value where
  | undef
  | nullV
  | numV (n : Int)
  | strV (s : String)
  | boolV (b : Bool)
  | ref (r : Nat)
  | arrV (vs : List Value)
  | injectorRef (fid : Nat)
  | sentinelRTIF
  | sentinelCTIF

/-- Reference comparison against the module-local sentinel objects
(`notFoundValue === THROW_IF_NOT_FOUND`); each sentinel is a unique
object, so the comparison holds exactly for the sentinel itself. -/
def Value.isSentinelRTIF : Value → Bool
  | .sentinelRTIF => true
  | _ => false

def Value.isSentinelCTIF : Value → Bool
  | .sentinelCTIF => true
  | _ => false

/-- A cache slot of the container: `UNDEFINED` (the module-local "not
yet constructed" sentinel object) or a constructed value. -/
inductive Slot where
  | unconstructed
  | val (v : Value)

/-- A dependency visibility annotation: the `Self` or `SkipSelf`
metadata instance attached to a dependency, or `none` for default
visibility (the source passes `Self | SkipSelf | null`). -/
inductive Visibility where
  | selfVis
  | skipSelf
deriving DecidableEq, Repr

/-- `ReflectiveDependency`: a resolved dependency descriptor with its
key, optionality flag and visibility. -/
structure ReflectiveDependency where
  key : ReflectiveKey
  optional : Bool
  visibility : Option Visibility
deriving DecidableEq

/-- The behaviour of a resolved factory function.  JavaScript factories
are arbitrary functions; the model covers the behaviours produced by
the provider resolver and needed by the engine: return a fixed value
(`useValue`), allocate a fresh class instance (class providers — the
constructor returns a new object each call), forward the first
dependency (`useExisting`), or throw (a failing user factory, with a
message and a stack). -/
inductive FactoryFn where
  | constVal (v : Value)
  | construct
  | firstDep
  | throwErr (message : String) (stack : String)

/-- Run a factory on the resolved dependency arguments.  `nextRef` is
the allocation counter providing fresh object identities; a thrown
user error is reported as its message and stack. -/
def FactoryFn.apply : FactoryFn → List Value → Nat → Except (String × String) (Value × Nat)
  | .constVal v, _, nextRef => .ok (v, nextRef)
  | .construct, _, nextRef => .ok (.ref nextRef, nextRef + 1)
  | .firstDep, args, nextRef => .ok (args.headD .undef, nextRef)
  | .throwErr m st, _, _ => .error (m, st)

/-- `ResolvedReflectiveFactory`: a factory function together with its
resolved dependency list. -/
structure ResolvedReflectiveFactory where
  factory : FactoryFn
  dependencies : List ReflectiveDependency

/-- `ResolvedReflectiveProvider`: a key, the contributing factories and
the multi-provider flag. -/
structure ResolvedReflectiveProvider where
  key : ReflectiveKey
  resolvedFactories : List ResolvedReflectiveFactory
  multiProvider : Bool

/-- Fallback provider/factory used only for the arms of the engine that
are unreachable in well-formed states (an index produced by a key scan
is always in range, and a resolved provider always has at least one
factory). -/
def emptyFactory : ResolvedReflectiveFactory := ⟨.constVal .undef, []⟩

def emptyProvider : ResolvedReflectiveProvider := ⟨⟨injectorToken, 0, "Injector"⟩, [], false⟩

/-- The parent field of a `ReflectiveInjector_`: another reflective
injector (identified by frame id), the `NullInjector`, or `null`. -/
inductive ParentRef where
  | injector (fid : Nat)
  | nullInjector
  | noParent
deriving DecidableEq, Repr

/-- The mutable per-injector state: the resolved providers (immutable
after construction), the parallel cache-slot array `objs`, the
construction counter used for cycle detection, and the parent
reference.  The source's parallel `keyIds` array always equals
`providers.map (·.key.id)` (both are set once in the constructor and
never written again), so it is represented by `Frame.keyIds`. -/
structure Frame where
  providers : List ResolvedReflectiveProvider
  objs : List Slot
  counter : Nat
  parent : ParentRef

def Frame.keyIds (f : Frame) : List Nat := f.providers.map (fun p => p.key.id)

/-- Scan of the `keyIds` array in `getObjByKeyId`: the first index `i`
with `keyIds[i] === keyId`, together with `providers[i]`. -/
def findProvider (ps : List ResolvedReflectiveProvider) (keyId : Nat) :
    Option (Nat × ResolvedReflectiveProvider) :=
  match ps with
  | [] => none
  | p :: rest =>
    if p.key.id = keyId then some (0, p)
    else (findProvider rest keyId).map (fun ip => (ip.1 + 1, ip.2))

/-- `getMaxNumberOfObjects()`: the length of the `objs` array. -/
def Frame.maxNumberOfObjects (f : Frame) : Nat := f.objs.length

/-- The global mutable state: every injector frame ever created
(injector references are indices into this list; frames are never
removed), the global key registry, and the allocation counter giving
object identities. -/
structure DIState where
  frames : List Frame
  registry : KeyRegistry
  nextRef : Nat

def DIState.frame? (s : DIState) (fid : Nat) : Option Frame := s.frames.get? fid

/-- Write cache slot `i` of frame `fid` (`this.objs[i] = ...`). -/
def DIState.setSlot (s : DIState) (fid : Nat) (i : Nat) (v : Value) : DIState :=
  match s.frames.get? fid with
  | none => s
  | some fr => { s with frames := s.frames.set fid { fr with objs := fr.objs.set i (.val v) } }

/-- `this.constructionCounter++`. -/
def DIState.bumpCounter (s : DIState) (fid : Nat) : DIState :=
  match s.frames.get? fid with
  | none => s
  | some fr => { s with frames := s.frames.set fid { fr with counter := fr.counter + 1 } }

/-- Every frame's cache array has one slot per provider (established by
the `ReflectiveInjector_` constructor and preserved forever). -/
def DIState.wf (s : DIState) : Prop :=
  ∀ fid fr, s.frame? fid = some fr → fr.objs.length = fr.providers.length

/-- The result of an engine step: a returned value (`none` is the
module-local `UNDEFINED` sentinel that `getObjByKeyId` returns on a
miss), a thrown error, or exhausted fuel (used only to make the
recursion structural; every theorem supplies enough fuel).  Both
normal and thrown outcomes carry the state, since mutations made
before a throw persist. -/
inductive StepRes where
  | ok (v : Option Value) (s : DIState)
  | err (e : JsError) (s : DIState)
  | timeout

/-- Modelled from the spec (`reflective_errors.ts` is not among the
provided sources): `noProviderError(injector, key)` — the failure when
no binding is found; it starts the key chain at the requested key. -/
def noProviderError (key : ReflectiveKey) : JsError :=
  .noProvider [key.chainEntry]

/-- Modelled from the spec: `cyclicDependencyError(injector, key)`. -/
def cyclicDependencyError (key : ReflectiveKey) : JsError :=
  .cyclicDependency [key.chainEntry]

/-- Modelled from the spec: `instantiationError(injector, e, e.stack,
key)` wraps a failure thrown by a user factory, preserving the original
message and stack and starting the key chain at the provider's key. -/
def instantiationError (origMessage origStack : String) (key : ReflectiveKey) : JsError :=
  .instantiation origMessage origStack [key.chainEntry]

/-- Whether an error object has an `addKey` method: the three
dependency-injection error shapes do, plain errors do not (the source
guards with `if (e.addKey)`). -/
def JsError.hasAddKey : JsError → Bool
  | .noProvider _ => true
  | .cyclicDependency _ => true
  | .instantiation _ _ _ => true
  | _ => false

/-- `e.addKey(injector, key)`: append the key to the error's chain. -/
def JsError.addKey (e : JsError) (k : ReflectiveKey) : JsError :=
  match e with
  | .noProvider ks => .noProvider (ks ++ [k.chainEntry])
  | .cyclicDependency ks => .cyclicDependency (ks ++ [k.chainEntry])
  | .instantiation m st ks => .instantiation m st (ks ++ [k.chainEntry])
  | e => e

/-- `throwOrNull(key, notFoundValue)`: return the caller-supplied
not-found value unless it is the module-local `THROW_IF_NOT_FOUND`
sentinel, in which case throw `noProviderError`. -/
def throwOrNull (key : ReflectiveKey) (notFoundValue : Value) (s : DIState) : StepRes :=
  if !notFoundValue.isSentinelRTIF then .ok (some notFoundValue) s
  else .err (noProviderError key) s

/-- `NullInjector.get(token, notFoundValue)` as reached from the parent
walk: the argument is passed through unchanged, and the comparison is
against the `injector_compatibility` sentinel (a different object from
the reflective injector's own sentinel). -/
def nullInjectorGetInner (token : Token) (notFoundValue : Value) (s : DIState) : StepRes :=
  if notFoundValue.isSentinelCTIF then
    .err (.plainError ("No provider for " ++ stringify token ++ "!")) s
  else .ok (some notFoundValue) s

/-- The internal calls of `ReflectiveInjector_`, used as the instruction
type of the fuel-indexed engine `step` below.  `walkChain` is the
`while (inj instanceof ReflectiveInjector_)` loop of
`getByKeyDefault` (`self` is the injector whose `throwOrNull` runs when
the chain ends at `null`); `multiLoop` and `depsLoop` are the loops of
`instantiateProvider` and of the `dependencies.map` in
`instantiate`. -/
inductive Call where
  | getByKey (fid : Nat) (key : ReflectiveKey) (visibility : Option Visibility) (notFoundValue : Value)
  | getByKeySelf (fid : Nat) (key : ReflectiveKey) (notFoundValue : Value)
  | getByKeyDefault (fid : Nat) (key : ReflectiveKey) (notFoundValue : Value) (visibility : Option Visibility)
  | walkChain (selfFid : Nat) (inj : ParentRef) (key : ReflectiveKey) (notFoundValue : Value)
  | getObjByKeyId (fid : Nat) (keyId : Nat)
  | newProvider (fid : Nat) (p : ResolvedReflectiveProvider)
  | instantiateProvider (fid : Nat) (p : ResolvedReflectiveProvider)
  | multiLoop (fid : Nat) (p : ResolvedReflectiveProvider) (rfs : List ResolvedReflectiveFactory) (acc : List Value)
  | instantiate (fid : Nat) (p : ResolvedReflectiveProvider) (rf : ResolvedReflectiveFactory)
  | depsLoop (fid : Nat) (deps : List ReflectiveDependency) (acc : List Value)
  | getByReflectiveDependency (fid : Nat) (dep : ReflectiveDependency)

/-- The id of `INJECTOR_KEY` (`key === INJECTOR_KEY` in `getByKey`;
keys are registry-unique, so reference equality of keys is equality of
ids). -/
def injectorKeyId : Nat := 0

/-- The resolution/instantiation engine of `ReflectiveInjector_`: a
fuel-indexed small-step interpreter.  Every internal call site of the
source becomes a recursive `step` invocation at one fuel less, so the
recursion is structural; `depsLoop` and `multiLoop` return their
collected lists wrapped as `Value.arrV`. -/
def step : Nat → Call → DIState → StepRes
  | 0, _, _ => .timeout
  | fuel + 1, c, s =>
    match c with
    | .getByKey fid key vis nf =>
      -- if (key === INJECTOR_KEY) return this;
      if key.id = injectorKeyId then .ok (some (.injectorRef fid)) s
      else
        match vis with
        | some .selfVis => step fuel (.getByKeySelf fid key nf) s
        | _ => step fuel (.getByKeyDefault fid key nf vis) s
    | .getByKeySelf fid key nf =>
      match step fuel (.getObjByKeyId fid key.id) s with
      | .ok (some v) s₁ => .ok (some v) s₁
      | .ok none s₁ => throwOrNull key nf s₁
      | r => r
    | .getByKeyDefault fid key nf vis =>
      let inj : ParentRef :=
        match vis with
        | some .skipSelf => ((s.frame? fid).map Frame.parent).getD .noParent
        | _ => .injector fid
      step fuel (.walkChain fid inj key nf) s
    | .walkChain selfFid inj key nf =>
      match inj with
      | .injector fid =>
        match step fuel (.getObjByKeyId fid key.id) s with
        | .ok (some v) s₁ => .ok (some v) s₁
        | .ok none s₁ =>
          let parent := ((s₁.frame? fid).map Frame.parent).getD .noParent
          step fuel (.walkChain selfFid parent key nf) s₁
        | r => r
      | .nullInjector => nullInjectorGetInner key.token nf s
      | .noParent => throwOrNull key nf s
    | .getObjByKeyId fid keyId =>
      match s.frame? fid with
      | none => .ok none s
      | some fr =>
        match findProvider fr.providers keyId with
        | none => .ok none s
        | some (i, p) =>
          match fr.objs.getD i .unconstructed with
          | .val v => .ok (some v) s
          | .unconstructed =>
            match step fuel (.newProvider fid p) s with
            | .ok (some v) s₁ => .ok (some v) (s₁.setSlot fid i v)
            | r => r
    | .newProvider fid p =>
      -- if (this.constructionCounter++ > this.getMaxNumberOfObjects()) throw ...
      let cnt := ((s.frame? fid).map Frame.counter).getD 0
      let maxObjs := ((s.frame? fid).map Frame.maxNumberOfObjects).getD 0
      let s₁ := s.bumpCounter fid
      if cnt > maxObjs then .err (cyclicDependencyError p.key) s₁
      else step fuel (.instantiateProvider fid p) s₁
    | .instantiateProvider fid p =>
      if p.multiProvider then step fuel (.multiLoop fid p p.resolvedFactories []) s
      else step fuel (.instantiate fid p (p.resolvedFactories.getD 0 emptyFactory)) s
    | .multiLoop fid p rfs acc =>
      match rfs with
      | [] => .ok (some (.arrV acc.reverse)) s
      | rf :: rest =>
        match step fuel (.instantiate fid p rf) s with
        | .ok (some v) s₁ => step fuel (.multiLoop fid p rest (v :: acc)) s₁
        | r => r
    | .instantiate fid p rf =>
      match step fuel (.depsLoop fid rf.dependencies []) s with
      | .ok (some (.arrV deps)) s₁ =>
        match rf.factory.apply deps s₁.nextRef with
        | .ok (v, nextRef) => .ok (some v) { s₁ with nextRef := nextRef }
        | .error (m, st) => .err (instantiationError m st p.key) s₁
      | .ok v s₁ => .ok v s₁
      | .err e s₁ => .err (if e.hasAddKey then e.addKey p.key else e) s₁
      | .timeout => .timeout
    | .depsLoop fid deps acc =>
      match deps with
      | [] => .ok (some (.arrV acc.reverse)) s
      | d :: rest =>
        match step fuel (.getByReflectiveDependency fid d) s with
        | .ok (some v) s₁ => step fuel (.depsLoop fid rest (v :: acc)) s₁
        | r => r
    | .getByReflectiveDependency fid dep =>
      step fuel (.getByKey fid dep.key dep.visibility
        (if dep.optional then .nullV else .sentinelRTIF)) s

/-- The compiled form of a TypeScript default parameter
`notFoundValue: any = THROW_IF_NOT_FOUND`: an absent argument — and
also an explicitly passed `undefined` — selects the sentinel. -/
def defaultArg (arg : Option Value) (sentinel : Value) : Value :=
  match arg with
  | none => sentinel
  | some .undef => sentinel
  | some v => v

/-- `ReflectiveInjector_.get(token, notFoundValue)`: obtain the key via
the global registry (which may register the token, or throw on a falsy
one) and run `getByKey` with `null` visibility. -/
def injectorGet (fuel : Nat) (s : DIState) (fid : Nat) (token : Token) (arg : Option Value) : StepRes :=
  let nf := defaultArg arg .sentinelRTIF
  match reflectiveKeyGet s.registry (.tok token) with
  | .error e => .err e s
  | .ok (key, reg) => step fuel (.getByKey fid key none nf) { s with registry := reg }

/-- `NullInjector.get(token, notFoundValue)` called directly by a user
(with default-parameter semantics on its own sentinel). -/
def nullInjectorGet (token : Token) (arg : Option Value) : Except JsError Value :=
  let nf := defaultArg arg .sentinelCTIF
  if nf.isSentinelCTIF then
    .error (.plainError ("No provider for " ++ stringify token ++ "!"))
  else .ok nf

/-- The `ReflectiveInjector_` constructor wrapped by
`fromResolvedProviders`: record the providers, initialise every cache
slot to `UNDEFINED`, zero the construction counter and set the parent
(`parent || null`).  The new frame is appended to the state; its id is
returned. -/
def fromResolvedProviders (s : DIState) (providers : List ResolvedReflectiveProvider)
    (parent : ParentRef) : Nat × DIState :=
  (s.frames.length,
    { s with frames := s.frames ++ [⟨providers, providers.map (fun _ => .unconstructed), 0, parent⟩] })

/-- `createChildFromResolved(providers)`: a new injector whose parent is
`this`. -/
def createChildFromResolved (s : DIState) (selfFid : Nat)
    (providers : List ResolvedReflectiveProvider) : Nat × DIState :=
  fromResolvedProviders s providers (.injector selfFid)

/-- `instantiateResolved(provider)` =
`this.instantiateProvider(provider)`: construct without consulting or
writing the provider's own cache slot. -/
def instantiateResolved (fuel : Nat) (s : DIState) (fid : Nat)
    (p : ResolvedReflectiveProvider) : StepRes :=
  step fuel (.instantiateProvider fid p) s

/-- Modelled from the spec (`reflective_provider.ts` is not among the
provided sources): resolving a single class provider with no declared
constructor dependencies yields one non-multi resolved provider whose
sole factory constructs a fresh instance. -/
def resolveClassProvider (key : ReflectiveKey) : ResolvedReflectiveProvider :=
  ⟨key, [⟨.construct, []⟩], false⟩

/-- `Pres s s₁`: the engine-immutable structure of `s₁` agrees with
`s`. -/
def Pres (s s₁ : DIState) : Prop :=
  s₁.registry = s.registry ∧
  s₁.frames.length = s.frames.length ∧
  ∀ i : Nat,
    (s₁.frame? i).map Frame.providers = (s.frame? i).map Frame.providers ∧
    (s₁.frame? i).map Frame.parent = (s.frame? i).map Frame.parent ∧
    (s₁.frame? i).map (fun fr => fr.objs.length) = (s.frame? i).map (fun fr => fr.objs.length)

/-- The preservation claim for a step result: both normal and thrown
outcomes preserve the structure. -/
def PresRes (s : DIState) : StepRes → Prop
  | .ok _ s₁ => Pres s s₁
  | .err _ s₁ => Pres s s₁
  | .timeout => True

/-- Calls that may return the `UNDEFINED` sentinel. -/
def Call.mayUndefined : Call → Bool
  | .getObjByKeyId _ _ => true
  | _ => false

/-- Calls that return a collected array on success. -/
def Call.isLoop : Call → Bool
  | .multiLoop _ _ _ _ => true
  | .depsLoop _ _ _ => true
  | _ => false

/-- The shape claim for a step result. -/
def ShapeRes (c : Call) : StepRes → Prop
  | .ok v _ =>
      (c.mayUndefined = false → v ≠ none) ∧
      (c.isLoop = true → ∃ vs, v = some (.arrV vs))
  | _ => True

/-- The key that resolution creates for a class token. -/
def classKey (t : Token) (id : Nat) : ReflectiveKey := ⟨t, id, stringify t⟩

def oneTokenRegistry (t : Token) : KeyRegistry := initRegistry ++ [(t, classKey t 1)]

def twoTokenRegistry (tA tB : Token) : KeyRegistry :=
  initRegistry ++ [(tA, classKey tA 1), (tB, classKey tB 2)]

/-- A fresh state holding no frames, with the given registry. -/
def blankState (r : KeyRegistry) : DIState := { frames := [], registry := r, nextRef := 0 }

/-- `parent = resolveAndCreate([A]); child = parent.resolveAndCreateChild([B])`
for two no-dependency class providers: the resolution step registered
the tokens and produced one resolved class provider each; the two
containers were then built from the resolved providers.  Returns the
state together with the parent and child frame ids. -/
def parentChildSetup (tA tB : Token) : DIState × Nat × Nat :=
  let pr := fromResolvedProviders (blankState (twoTokenRegistry tA tB))
    [resolveClassProvider (classKey tA 1)] .noParent
  let ch := createChildFromResolved pr.2 pr.1 [resolveClassProvider (classKey tB 2)]
  (ch.2, pr.1, ch.1)

/-- The state after `child.get(A)`: the instance (reference `0`) was
constructed and cached in the parent frame. -/
def pcAfterA (tA tB : Token) : DIState :=
  { frames := [⟨[resolveClassProvider (classKey tA 1)], [.val (.ref 0)], 1, .noParent⟩,
               ⟨[resolveClassProvider (classKey tB 2)], [.unconstructed], 0, .injector 0⟩],
    registry := twoTokenRegistry tA tB, nextRef := 1 }

/-- The state after `child.get(A)` and `child.get(B)`. -/
def pcAfterAB (tA tB : Token) : DIState :=
  { frames := [⟨[resolveClassProvider (classKey tA 1)], [.val (.ref 0)], 1, .noParent⟩,
               ⟨[resolveClassProvider (classKey tB 2)], [.val (.ref 1)], 1, .injector 0⟩],
    registry := twoTokenRegistry tA tB, nextRef := 2 }

/-- A `useValue`-style resolved provider (single zero-dependency factory
returning a fixed value). -/
def valProvider (t : Token) (v : Value) : ResolvedReflectiveProvider :=
  ⟨classKey t 1, [⟨.constVal v, []⟩], false⟩

def valState (t : Token) (v : Value) : DIState :=
  { frames := [⟨[valProvider t v], [.unconstructed], 0, .noParent⟩],
    registry := oneTokenRegistry t, nextRef := 0 }

def valStateAfter (t : Token) (v : Value) : DIState :=
  { frames := [⟨[valProvider t v], [.val v], 1, .noParent⟩],
    registry := oneTokenRegistry t, nextRef := 0 }

/-- An empty reflective container with no parent. -/
def emptyRefl (t : Token) : DIState :=
  (fromResolvedProviders (blankState (oneTokenRegistry t)) [] .noParent).2

/-- An empty reflective parent (frame 0) with an empty reflective child
(frame 1). -/
def chainRefl (t : Token) : DIState :=
  let pr := fromResolvedProviders (blankState (oneTokenRegistry t)) [] .noParent
  (createChildFromResolved pr.2 pr.1 []).2

/-- An empty reflective container whose parent is the Null Container
(`Injector.NULL`). -/
def nullParentRefl (t : Token) : DIState :=
  (fromResolvedProviders (blankState (oneTokenRegistry t)) [] .nullInjector).2

/-- A resolved class provider with one required default-visibility
dependency. -/
def depProvider (k dk : ReflectiveKey) : ResolvedReflectiveProvider :=
  ⟨k, [⟨.construct, [⟨dk, false, none⟩]⟩], false⟩

/-- A container whose sole provider depends on itself. -/
def selfCycleState (t : Token) : DIState :=
  (fromResolvedProviders (blankState (oneTokenRegistry t))
    [depProvider (classKey t 1) (classKey t 1)] .noParent).2

def selfCycleAfter (t : Token) : DIState :=
  { frames := [⟨[depProvider (classKey t 1) (classKey t 1)], [.unconstructed], 3, .noParent⟩],
    registry := oneTokenRegistry t, nextRef := 0 }

/-- A container with two mutually dependent providers. -/
def mutualCycleState (tA tB : Token) : DIState :=
  (fromResolvedProviders (blankState (twoTokenRegistry tA tB))
    [depProvider (classKey tA 1) (classKey tB 2), depProvider (classKey tB 2) (classKey tA 1)]
    .noParent).2

def mutualCycleAfter (tA tB : Token) : DIState :=
  { frames := [⟨[depProvider (classKey tA 1) (classKey tB 2),
                 depProvider (classKey tB 2) (classKey tA 1)], [.unconstructed, .unconstructed],
                4, .noParent⟩],
    registry := twoTokenRegistry tA tB, nextRef := 0 }

/-- A resolved provider whose single factory throws. -/
def throwProvider (t : Token) (m st : String) : ResolvedReflectiveProvider :=
  ⟨classKey t 1, [⟨.throwErr m st, []⟩], false⟩

def throwState (t : Token) (m st : String) : DIState :=
  (fromResolvedProviders (blankState (oneTokenRegistry t)) [throwProvider t m st] .noParent).2

/-- The throwing-provider container with construction counter `c` (its
slot is still unconstructed). -/
def throwStateN (t : Token) (m st : String) (c : Nat) : DIState :=
  { frames := [⟨[throwProvider t m st], [.unconstructed], c, .noParent⟩],
    registry := oneTokenRegistry t, nextRef := 0 }

/-- A container whose sole provider requires a dependency bound
nowhere. -/
def depFailState (tA tB : Token) : DIState :=
  (fromResolvedProviders (blankState (twoTokenRegistry tA tB))
    [depProvider (classKey tA 1) (classKey tB 2)] .noParent).2

def depFailAfter (tA tB : Token) : DIState :=
  { frames := [⟨[depProvider (classKey tA 1) (classKey tB 2)], [.unconstructed], 1, .noParent⟩],
    registry := twoTokenRegistry tA tB, nextRef := 0 }

/-- Two resolved providers for the same key (duplicate key id `1`), as
accepted verbatim by `fromResolvedProviders` (the constructor performs
no validation: building this container is a total operation). -/
def dupState (t : Token) (v₁ v₂ : Value) : DIState :=
  (fromResolvedProviders (blankState (oneTokenRegistry t))
    [⟨classKey t 1, [⟨.constVal v₁, []⟩], false⟩,
     ⟨classKey t 1, [⟨.constVal v₂, []⟩], false⟩] .noParent).2

def dupAfter (t : Token) (v₁ v₂ : Value) : DIState :=
  { frames := [⟨[⟨classKey t 1, [⟨.constVal v₁, []⟩], false⟩,
                 ⟨classKey t 1, [⟨.constVal v₂, []⟩], false⟩],
                [.val v₁, .unconstructed], 1, .noParent⟩],
    registry := oneTokenRegistry t, nextRef := 0 }

/-! ### Structural preservation

`get` and instantiation mutate only the cache slots, the construction
counters and the allocation counter.  The provider tables, parent
links, frame count, per-frame slot count and the key registry are
untouched by the engine; this is the backbone of every idempotence
argument below. -/

theorem pres_refl (s : DIState) : Pres s s := ⟨rfl, rfl, fun _ => ⟨rfl, rfl, rfl⟩⟩

theorem pres_trans {s₁ s₂ s₃ : DIState} (h₁ : Pres s₁ s₂) (h₂ : Pres s₂ s₃) : Pres s₁ s₃ := by
  obtain ⟨a₁, b₁, c₁⟩ := h₁
  obtain ⟨a₂, b₂, c₂⟩ := h₂
  refine ⟨a₂.trans a₁, b₂.trans b₁, fun i => ?_⟩
  obtain ⟨p₁, q₁, r₁⟩ := c₁ i
  obtain ⟨p₂, q₂, r₂⟩ := c₂ i
  exact ⟨p₂.trans p₁, q₂.trans q₁, r₂.trans r₁⟩

/-- Replacing a frame by one with the same providers, parent and slot
count preserves the structure. -/
theorem pres_setFrame {s : DIState} {fid : Nat} {fr fr₁ : Frame}
    (hget : s.frames.get? fid = some fr)
    (hp : fr₁.providers = fr.providers) (hpar : fr₁.parent = fr.parent)
    (hlen : fr₁.objs.length = fr.objs.length) :
    Pres s { s with frames := s.frames.set fid fr₁ } := by
  have hlt : fid < s.frames.length := by
    by_contra hge
    rw [List.get?_eq_none.mpr (Nat.le_of_not_lt hge)] at hget
    exact Option.noConfusion hget
  refine ⟨rfl, by simp, fun i => ?_⟩
  show Option.map Frame.providers ((s.frames.set fid fr₁).get? i) = _ ∧
    Option.map Frame.parent ((s.frames.set fid fr₁).get? i) = _ ∧
    Option.map (fun fr => fr.objs.length) ((s.frames.set fid fr₁).get? i) = _
  rw [List.get?_set_of_lt' fr₁ s.frames hlt]
  by_cases h : fid = i
  · subst h
    rw [if_pos rfl]
    show _ = Option.map Frame.providers (s.frames.get? fid) ∧
      _ = Option.map Frame.parent (s.frames.get? fid) ∧
      _ = Option.map (fun fr => fr.objs.length) (s.frames.get? fid)
    rw [hget]
    exact ⟨by simp [hp], by simp [hpar], by simp [hlen]⟩
  · rw [if_neg h]
    exact ⟨rfl, rfl, rfl⟩

theorem pres_setSlot (s : DIState) (fid i : Nat) (v : Value) :
    Pres s (s.setSlot fid i v) := by
  unfold DIState.setSlot
  cases hget : s.frames.get? fid with
  | none => exact pres_refl s
  | some fr => exact pres_setFrame hget rfl rfl (by simp)

theorem pres_bumpCounter (s : DIState) (fid : Nat) :
    Pres s (s.bumpCounter fid) := by
  unfold DIState.bumpCounter
  cases hget : s.frames.get? fid with
  | none => exact pres_refl s
  | some fr => exact pres_setFrame hget rfl rfl rfl

theorem pres_nextRef (s : DIState) (n : Nat) : Pres s { s with nextRef := n } :=
  ⟨rfl, rfl, fun _ => ⟨rfl, rfl, rfl⟩⟩

theorem presRes_of_pres {s s₀ : DIState} {r : StepRes}
    (h : Pres s s₀) (hr : PresRes s₀ r) : PresRes s r := by
  cases r with
  | ok v s₁ => exact pres_trans h hr
  | err e s₁ => exact pres_trans h hr
  | timeout => trivial

theorem presRes_throwOrNull (s s₁ : DIState) (key : ReflectiveKey) (nf : Value)
    (h : Pres s s₁) : PresRes s (throwOrNull key nf s₁) := by
  unfold throwOrNull
  split <;> exact h

/-- Every engine step preserves the structure of the state. -/
theorem step_pres : ∀ (f : Nat) (c : Call) (s : DIState), PresRes s (step f c s) := by
  intro f
  induction f with
  | zero => intro c s; trivial
  | succ f ih =>
    intro c s
    cases c with
    | getByKey fid key vis nf =>
      simp only [step]
      split
      · exact pres_refl s
      · split
        · exact ih _ s
        · exact ih _ s
    | getByKeySelf fid key nf =>
      simp only [step]
      cases hr : step f (.getObjByKeyId fid key.id) s with
      | ok v s₁ =>
        have h := ih (.getObjByKeyId fid key.id) s
        rw [hr] at h
        cases v with
        | some v => exact h
        | none => exact presRes_throwOrNull s s₁ key nf h
      | err e s₁ =>
        have h := ih (.getObjByKeyId fid key.id) s
        rw [hr] at h
        exact h
      | timeout => trivial
    | getByKeyDefault fid key nf vis =>
      simp only [step]
      exact ih _ s
    | walkChain selfFid inj key nf =>
      cases inj with
      | injector fid =>
        simp only [step]
        cases hr : step f (.getObjByKeyId fid key.id) s with
        | ok v s₁ =>
          have h := ih (.getObjByKeyId fid key.id) s
          rw [hr] at h
          cases v with
          | some v => exact h
          | none => exact presRes_of_pres h (ih _ s₁)
        | err e s₁ =>
          have h := ih (.getObjByKeyId fid key.id) s
          rw [hr] at h
          exact h
        | timeout => trivial
      | nullInjector =>
        simp only [step, nullInjectorGetInner]
        split
        · exact pres_refl s
        · exact pres_refl s
      | noParent =>
        simp only [step]
        exact presRes_throwOrNull s s key nf (pres_refl s)
    | getObjByKeyId fid keyId =>
      simp only [step]
      cases hfr : s.frame? fid with
      | none => exact pres_refl s
      | some fr =>
        dsimp only
        cases hfind : findProvider fr.providers keyId with
        | none => exact pres_refl s
        | some ip =>
          obtain ⟨i, p⟩ := ip
          dsimp only
          cases hslot : fr.objs.getD i .unconstructed with
          | val v => exact pres_refl s
          | unconstructed =>
            dsimp only
            cases hr : step f (.newProvider fid p) s with
            | ok v s₁ =>
              have h := ih (.newProvider fid p) s
              rw [hr] at h
              cases v with
              | some v => exact pres_trans h (pres_setSlot s₁ fid i v)
              | none => exact h
            | err e s₁ =>
              have h := ih (.newProvider fid p) s
              rw [hr] at h
              exact h
            | timeout => trivial
    | newProvider fid p =>
      simp only [step]
      split
      · exact pres_bumpCounter s fid
      · exact presRes_of_pres (pres_bumpCounter s fid) (ih _ _)
    | instantiateProvider fid p =>
      simp only [step]
      split
      · exact ih _ s
      · exact ih _ s
    | multiLoop fid p rfs acc =>
      cases rfs with
      | nil =>
        simp only [step]
        exact pres_refl s
      | cons rf rest =>
        simp only [step]
        cases hr : step f (.instantiate fid p rf) s with
        | ok v s₁ =>
          have h := ih (.instantiate fid p rf) s
          rw [hr] at h
          cases v with
          | some v => exact presRes_of_pres h (ih _ s₁)
          | none => exact h
        | err e s₁ =>
          have h := ih (.instantiate fid p rf) s
          rw [hr] at h
          exact h
        | timeout => trivial
    | instantiate fid p rf =>
      simp only [step]
      cases hr : step f (.depsLoop fid rf.dependencies []) s with
      | ok v s₁ =>
        have h := ih (.depsLoop fid rf.dependencies []) s
        rw [hr] at h
        cases v with
        | some v =>
          cases v with
          | arrV deps =>
            dsimp only
            cases happ : FactoryFn.apply rf.factory deps s₁.nextRef with
            | ok vn =>
              obtain ⟨v, n⟩ := vn
              exact pres_trans h (pres_nextRef s₁ n)
            | error mst =>
              obtain ⟨m, st⟩ := mst
              exact h
          | undef => exact h
          | nullV => exact h
          | numV n => exact h
          | strV a => exact h
          | boolV b => exact h
          | ref r => exact h
          | injectorRef q => exact h
          | sentinelRTIF => exact h
          | sentinelCTIF => exact h
        | none => exact h
      | err e s₁ =>
        have h := ih (.depsLoop fid rf.dependencies []) s
        rw [hr] at h
        exact h
      | timeout => trivial
    | depsLoop fid deps acc =>
      cases deps with
      | nil =>
        simp only [step]
        exact pres_refl s
      | cons d rest =>
        simp only [step]
        cases hr : step f (.getByReflectiveDependency fid d) s with
        | ok v s₁ =>
          have h := ih (.getByReflectiveDependency fid d) s
          rw [hr] at h
          cases v with
          | some v => exact presRes_of_pres h (ih _ s₁)
          | none => exact h
        | err e s₁ =>
          have h := ih (.getByReflectiveDependency fid d) s
          rw [hr] at h
          exact h
        | timeout => trivial
    | getByReflectiveDependency fid dep =>
      simp only [step]
      exact ih _ s

/-! ### Result shapes

Only `getObjByKeyId` can produce the `UNDEFINED` sentinel, and the two
argument-collecting loops always produce an array on success. -/

theorem shapeRes_throwOrNull (c : Call) (key : ReflectiveKey) (nf : Value) (s₁ : DIState)
    (hml : c.isLoop = false) : ShapeRes c (throwOrNull key nf s₁) := by
  unfold throwOrNull
  split
  · exact ⟨fun _ => Option.noConfusion, fun hl => by rw [hml] at hl; exact Bool.noConfusion hl⟩
  · trivial

theorem shapeRes_nullInner (c : Call) (tok : Token) (nf : Value) (s : DIState)
    (hml : c.isLoop = false) : ShapeRes c (nullInjectorGetInner tok nf s) := by
  unfold nullInjectorGetInner
  split
  · trivial
  · exact ⟨fun _ => Option.noConfusion, fun hl => by rw [hml] at hl; exact Bool.noConfusion hl⟩

theorem shapeRes_okSome (c : Call) (hml : c.isLoop = false) (v : Value) (s : DIState) :
    ShapeRes c (.ok (some v) s) :=
  ⟨fun _ => Option.noConfusion, fun hl => by rw [hml] at hl; exact Bool.noConfusion hl⟩

theorem step_shape : ∀ (f : Nat) (c : Call) (s : DIState), ShapeRes c (step f c s) := by
  intro f
  induction f with
  | zero => intro c s; trivial
  | succ f ih =>
    intro c s
    cases c with
    | getByKey fid key vis nf =>
      simp only [step]
      split
      · exact ⟨fun _ => Option.noConfusion, fun h => Bool.noConfusion h⟩
      · split
        · have h := ih (.getByKeySelf fid key nf) s
          cases hr : step f (.getByKeySelf fid key nf) s with
          | ok v s₁ =>
            rw [hr] at h
            exact ⟨fun _ => h.1 rfl, fun hl => Bool.noConfusion hl⟩
          | err e s₁ => rw [hr] at h; trivial
          | timeout => rw [hr] at h; trivial
        · have h := ih (.getByKeyDefault fid key nf vis) s
          cases hr : step f (.getByKeyDefault fid key nf vis) s with
          | ok v s₁ =>
            rw [hr] at h
            exact ⟨fun _ => h.1 rfl, fun hl => Bool.noConfusion hl⟩
          | err e s₁ => rw [hr] at h; trivial
          | timeout => rw [hr] at h; trivial
    | getByKeySelf fid key nf =>
      simp only [step]
      cases hr : step f (.getObjByKeyId fid key.id) s with
      | ok v s₁ =>
        cases v with
        | some v => exact ⟨fun _ => Option.noConfusion, fun hl => Bool.noConfusion hl⟩
        | none => exact shapeRes_throwOrNull _ key nf s₁ rfl
      | err e s₁ => trivial
      | timeout => trivial
    | getByKeyDefault fid key nf vis =>
      have hgo : ∀ inj, ShapeRes (Call.getByKeyDefault fid key nf vis)
          (step f (.walkChain fid inj key nf) s) := by
        intro inj
        have h := ih (.walkChain fid inj key nf) s
        cases hr : step f (.walkChain fid inj key nf) s with
        | ok v s₁ =>
          rw [hr] at h
          exact ⟨fun _ => h.1 rfl, fun hl => Bool.noConfusion hl⟩
        | err e s₁ => trivial
        | timeout => trivial
      cases vis with
      | none => simp only [step]; exact hgo _
      | some v =>
        cases v with
        | selfVis => simp only [step]; exact hgo _
        | skipSelf => simp only [step]; exact hgo _
    | walkChain selfFid inj key nf =>
      cases inj with
      | injector fid =>
        simp only [step]
        cases hr : step f (.getObjByKeyId fid key.id) s with
        | ok v s₁ =>
          cases v with
          | some v => exact ⟨fun _ => Option.noConfusion, fun hl => Bool.noConfusion hl⟩
          | none =>
            show ShapeRes (Call.walkChain selfFid (ParentRef.injector fid) key nf)
              (step f (.walkChain selfFid (((s₁.frame? fid).map Frame.parent).getD .noParent) key nf) s₁)
            have h₂ := ih (.walkChain selfFid (((s₁.frame? fid).map Frame.parent).getD .noParent) key nf) s₁
            cases hw : step f (.walkChain selfFid (((s₁.frame? fid).map Frame.parent).getD .noParent) key nf) s₁ with
            | ok v s₂ =>
              rw [hw] at h₂
              exact ⟨fun _ => h₂.1 rfl, fun hl => Bool.noConfusion hl⟩
            | err e s₂ => trivial
            | timeout => trivial
        | err e s₁ => trivial
        | timeout => trivial
      | nullInjector =>
        simp only [step]
        exact shapeRes_nullInner _ key.token nf s rfl
      | noParent =>
        simp only [step]
        exact shapeRes_throwOrNull _ key nf s rfl
    | getObjByKeyId fid keyId =>
      have hmay : Call.mayUndefined (.getObjByKeyId fid keyId) = true := rfl
      have hloop : Call.isLoop (.getObjByKeyId fid keyId) = false := rfl
      cases hr : step (f + 1) (.getObjByKeyId fid keyId) s with
      | ok v s₁ =>
        exact ⟨fun hc => absurd hmay (by rw [hc]; exact Bool.noConfusion),
               fun hl => absurd hloop (by rw [hl]; exact Bool.noConfusion)⟩
      | err e s₁ => trivial
      | timeout => trivial
    | newProvider fid p =>
      simp only [step]
      split
      · trivial
      · have h := ih (.instantiateProvider fid p) (s.bumpCounter fid)
        cases hr : step f (.instantiateProvider fid p) (s.bumpCounter fid) with
        | ok v s₁ =>
          rw [hr] at h
          exact ⟨fun _ => h.1 rfl, fun hl => Bool.noConfusion hl⟩
        | err e s₁ => rw [hr] at h; trivial
        | timeout => rw [hr] at h; trivial
    | instantiateProvider fid p =>
      simp only [step]
      split
      · have h := ih (.multiLoop fid p p.resolvedFactories []) s
        cases hr : step f (.multiLoop fid p p.resolvedFactories []) s with
        | ok v s₁ =>
          rw [hr] at h
          exact ⟨fun _ => h.1 rfl, fun hl => Bool.noConfusion hl⟩
        | err e s₁ => rw [hr] at h; trivial
        | timeout => rw [hr] at h; trivial
      · have h := ih (.instantiate fid p (p.resolvedFactories.getD 0 emptyFactory)) s
        cases hr : step f (.instantiate fid p (p.resolvedFactories.getD 0 emptyFactory)) s with
        | ok v s₁ =>
          rw [hr] at h
          exact ⟨fun _ => h.1 rfl, fun hl => Bool.noConfusion hl⟩
        | err e s₁ => rw [hr] at h; trivial
        | timeout => rw [hr] at h; trivial
    | multiLoop fid p rfs acc =>
      cases rfs with
      | nil =>
        simp only [step]
        exact ⟨fun _ => Option.noConfusion, fun _ => ⟨acc.reverse, rfl⟩⟩
      | cons rf rest =>
        simp only [step]
        have h := ih (.instantiate fid p rf) s
        cases hr : step f (.instantiate fid p rf) s with
        | ok v s₁ =>
          rw [hr] at h
          cases v with
          | some v =>
            show ShapeRes (Call.multiLoop fid p (rf :: rest) acc)
              (step f (.multiLoop fid p rest (v :: acc)) s₁)
            have h₂ := ih (.multiLoop fid p rest (v :: acc)) s₁
            cases hw : step f (.multiLoop fid p rest (v :: acc)) s₁ with
            | ok w s₂ =>
              rw [hw] at h₂
              exact ⟨fun _ => h₂.1 rfl, fun _ => h₂.2 rfl⟩
            | err e s₂ => trivial
            | timeout => trivial
          | none => exact absurd rfl (h.1 rfl)
        | err e s₁ => trivial
        | timeout => trivial
    | instantiate fid p rf =>
      simp only [step]
      have h := ih (.depsLoop fid rf.dependencies []) s
      cases hr : step f (.depsLoop fid rf.dependencies []) s with
      | ok v s₁ =>
        rw [hr] at h
        cases v with
        | some v =>
          cases v with
          | arrV deps =>
            show ShapeRes (Call.instantiate fid p rf)
              (match rf.factory.apply deps s₁.nextRef with
                | .ok (v, nextRef) => .ok (some v) { s₁ with nextRef := nextRef }
                | .error (m, st) => .err (instantiationError m st p.key) s₁)
            cases happ : FactoryFn.apply rf.factory deps s₁.nextRef with
            | ok vn =>
              obtain ⟨v, n⟩ := vn
              exact shapeRes_okSome (Call.instantiate fid p rf) rfl v _
            | error mst =>
              obtain ⟨m, st⟩ := mst
              trivial
          | undef => exact shapeRes_okSome (Call.instantiate fid p rf) rfl _ _
          | nullV => exact shapeRes_okSome (Call.instantiate fid p rf) rfl _ _
          | numV n => exact shapeRes_okSome (Call.instantiate fid p rf) rfl _ _
          | strV a => exact shapeRes_okSome (Call.instantiate fid p rf) rfl _ _
          | boolV b => exact shapeRes_okSome (Call.instantiate fid p rf) rfl _ _
          | ref r => exact shapeRes_okSome (Call.instantiate fid p rf) rfl _ _
          | injectorRef q => exact shapeRes_okSome (Call.instantiate fid p rf) rfl _ _
          | sentinelRTIF => exact shapeRes_okSome (Call.instantiate fid p rf) rfl _ _
          | sentinelCTIF => exact shapeRes_okSome (Call.instantiate fid p rf) rfl _ _
        | none => exact absurd rfl (h.1 rfl)
      | err e s₁ => trivial
      | timeout => trivial
    | depsLoop fid deps acc =>
      cases deps with
      | nil =>
        simp only [step]
        exact ⟨fun _ => Option.noConfusion, fun _ => ⟨acc.reverse, rfl⟩⟩
      | cons d rest =>
        simp only [step]
        have h := ih (.getByReflectiveDependency fid d) s
        cases hr : step f (.getByReflectiveDependency fid d) s with
        | ok v s₁ =>
          rw [hr] at h
          cases v with
          | some v =>
            show ShapeRes (Call.depsLoop fid (d :: rest) acc)
              (step f (.depsLoop fid rest (v :: acc)) s₁)
            have h₂ := ih (.depsLoop fid rest (v :: acc)) s₁
            cases hw : step f (.depsLoop fid rest (v :: acc)) s₁ with
            | ok w s₂ =>
              rw [hw] at h₂
              exact ⟨fun _ => h₂.1 rfl, fun _ => h₂.2 rfl⟩
            | err e s₂ => trivial
            | timeout => trivial
          | none => exact absurd rfl (h.1 rfl)
        | err e s₁ => trivial
        | timeout => trivial
    | getByReflectiveDependency fid dep =>
      simp only [step]
      have h := ih (.getByKey fid dep.key dep.visibility
        (if dep.optional then .nullV else .sentinelRTIF)) s
      cases hr : step f (.getByKey fid dep.key dep.visibility
        (if dep.optional then .nullV else .sentinelRTIF)) s with
      | ok v s₁ =>
        rw [hr] at h
        exact ⟨fun _ => h.1 rfl, fun hl => Bool.noConfusion hl⟩
      | err e s₁ => rw [hr] at h; trivial
      | timeout => rw [hr] at h; trivial

/-! ### Inversion and idempotence of the cache lookup

A successful `get` leaves the container chain in a state in which the
same lookup returns the same value without further mutation: the slot
scan depends only on the immutable provider tables, and the hit slot
holds the returned value afterwards. -/

theorem findProvider_lt {ps : List ResolvedReflectiveProvider} {kid i : Nat}
    {p : ResolvedReflectiveProvider} (h : findProvider ps kid = some (i, p)) :
    i < ps.length := by
  induction ps generalizing i p with
  | nil => exact Option.noConfusion h
  | cons q rest ih =>
    unfold findProvider at h
    split at h
    · obtain ⟨rfl, rfl⟩ := Prod.mk.injEq .. ▸ (Option.some.injEq .. ▸ h)
      exact Nat.succ_pos _
    · cases hf : findProvider rest kid with
      | none => rw [hf] at h; exact Option.noConfusion h
      | some jp =>
        rw [hf] at h
        obtain ⟨j, p'⟩ := jp
        simp only [Option.map_some'] at h
        obtain ⟨h₁, h₂⟩ := Prod.mk.injEq .. ▸ (Option.some.injEq .. ▸ h)
        subst h₁
        exact Nat.succ_lt_succ (ih hf)

theorem findProvider_congr {ps ps' : List ResolvedReflectiveProvider} {kid : Nat}
    (h : ps' = ps) : findProvider ps' kid = findProvider ps kid := by rw [h]

/-- Extract the surviving frame from a preservation fact. -/
theorem pres_frame_some {s s₁ : DIState} (h : Pres s s₁) {fid : Nat} {fr : Frame}
    (hf : s.frame? fid = some fr) :
    ∃ fr₁, s₁.frame? fid = some fr₁ ∧ fr₁.providers = fr.providers ∧
      fr₁.parent = fr.parent ∧ fr₁.objs.length = fr.objs.length := by
  obtain ⟨-, -, h3⟩ := h
  obtain ⟨hp, hq, hl⟩ := h3 fid
  rw [hf] at hp hq hl
  cases h1 : s₁.frame? fid with
  | none => rw [h1] at hp; exact Option.noConfusion hp
  | some fr₁ =>
    rw [h1] at hp hq hl
    simp only [Option.map_some'] at hp hq hl
    exact ⟨fr₁, rfl, Option.some.injEq .. ▸ hp, Option.some.injEq .. ▸ hq,
      Option.some.injEq .. ▸ hl⟩

theorem pres_frame_none {s s₁ : DIState} (h : Pres s s₁) {fid : Nat}
    (hf : s.frame? fid = none) : s₁.frame? fid = none := by
  obtain ⟨-, -, h3⟩ := h
  obtain ⟨hp, -, -⟩ := h3 fid
  rw [hf] at hp
  cases h1 : s₁.frame? fid with
  | none => rfl
  | some fr₁ => rw [h1] at hp; exact Option.noConfusion hp

theorem pres_frame_some_rev {s s₁ : DIState} (h : Pres s s₁) {fid : Nat} {fr₁ : Frame}
    (hf : s₁.frame? fid = some fr₁) :
    ∃ fr, s.frame? fid = some fr ∧ fr₁.providers = fr.providers ∧
      fr₁.objs.length = fr.objs.length := by
  obtain ⟨-, -, h3⟩ := h
  obtain ⟨hp, -, hl⟩ := h3 fid
  rw [hf] at hp hl
  cases h1 : s.frame? fid with
  | none => rw [h1] at hp; exact Option.noConfusion hp
  | some fr =>
    rw [h1] at hp hl
    simp only [Option.map_some'] at hp hl
    exact ⟨fr, rfl, Option.some.injEq .. ▸ hp, Option.some.injEq .. ▸ hl⟩

theorem pres_parentD {s s₁ : DIState} (h : Pres s s₁) (fid : Nat) :
    ((s₁.frame? fid).map Frame.parent).getD .noParent =
      ((s.frame? fid).map Frame.parent).getD .noParent := by
  obtain ⟨-, -, h3⟩ := h
  rw [(h3 fid).2.1]

theorem wf_pres {s s₁ : DIState} (hwf : s.wf) (h : Pres s s₁) : s₁.wf := by
  intro fid fr₁ hf
  obtain ⟨fr, hfr, hp, hl⟩ := pres_frame_some_rev h hf
  rw [hl, hp]
  exact hwf fid fr hfr

/-- Build a `Pres` fact from a step equation (`step_pres` unpacked). -/
theorem pres_of_step_ok {f : Nat} {c : Call} {s s₁ : DIState} {v : Option Value}
    (h : step f c s = .ok v s₁) : Pres s s₁ := by
  have hp := step_pres f c s
  rw [h] at hp
  exact hp

theorem throwOrNull_ok_inv {key : ReflectiveKey} {nf : Value} {s s₁ : DIState} {v : Option Value}
    (h : throwOrNull key nf s = .ok v s₁) : s₁ = s ∧ v = some nf := by
  unfold throwOrNull at h
  split at h
  · exact ⟨(StepRes.ok.injEq .. ▸ h).2.symm, ((StepRes.ok.injEq .. ▸ h).1).symm⟩
  · exact StepRes.noConfusion h

theorem nullInner_ok_inv {tok : Token} {nf : Value} {s s₁ : DIState} {v : Option Value}
    (h : nullInjectorGetInner tok nf s = .ok v s₁) : s₁ = s ∧ v = some nf := by
  unfold nullInjectorGetInner at h
  split at h
  · exact StepRes.noConfusion h
  · exact ⟨(StepRes.ok.injEq .. ▸ h).2.symm, ((StepRes.ok.injEq .. ▸ h).1).symm⟩

/-- Unfolding equations for one `getObjByKeyId` step. -/
theorem step_getObj_noframe {f fid kid : Nat} {s : DIState}
    (hfr : s.frame? fid = none) :
    step (f + 1) (.getObjByKeyId fid kid) s = .ok none s := by
  simp only [step, hfr]

theorem step_getObj_nofind {f fid kid : Nat} {s : DIState} {fr : Frame}
    (hfr : s.frame? fid = some fr) (hfind : findProvider fr.providers kid = none) :
    step (f + 1) (.getObjByKeyId fid kid) s = .ok none s := by
  simp only [step, hfr, hfind]

theorem step_getObj_cached {f fid kid i : Nat} {s : DIState} {fr : Frame}
    {p : ResolvedReflectiveProvider} {v : Value}
    (hfr : s.frame? fid = some fr) (hfind : findProvider fr.providers kid = some (i, p))
    (hslot : fr.objs.getD i .unconstructed = .val v) :
    step (f + 1) (.getObjByKeyId fid kid) s = .ok (some v) s := by
  simp only [step, hfr, hfind, hslot]

theorem step_getObj_new {f fid kid i : Nat} {s : DIState} {fr : Frame}
    {p : ResolvedReflectiveProvider}
    (hfr : s.frame? fid = some fr) (hfind : findProvider fr.providers kid = some (i, p))
    (hslot : fr.objs.getD i .unconstructed = .unconstructed) :
    step (f + 1) (.getObjByKeyId fid kid) s =
      (match step f (.newProvider fid p) s with
        | .ok (some v) s₂ => .ok (some v) (s₂.setSlot fid i v)
        | r => r) := by
  simp only [step, hfr, hfind, hslot]

/-- A lookup returning the `UNDEFINED` sentinel did not change the state
and means the frame (if any) has no slot for the key. -/
theorem getObj_none_inv {f fid kid : Nat} {s s₁ : DIState}
    (h : step f (.getObjByKeyId fid kid) s = .ok none s₁) :
    s₁ = s ∧ ∀ fr, s.frame? fid = some fr → findProvider fr.providers kid = none := by
  cases f with
  | zero => exact StepRes.noConfusion h
  | succ f =>
    cases hfr : s.frame? fid with
    | none =>
      rw [step_getObj_noframe hfr] at h
      injection h with hv hs
      exact ⟨hs.symm, fun fr hf => Option.noConfusion hf⟩
    | some fr =>
      cases hfind : findProvider fr.providers kid with
      | none =>
        rw [step_getObj_nofind hfr hfind] at h
        injection h with hv hs
        refine ⟨hs.symm, fun fr₀ hf => ?_⟩
        injection hf with hfr₀
        rw [← hfr₀]
        exact hfind
      | some ip =>
        obtain ⟨i, p⟩ := ip
        cases hslot : fr.objs.getD i .unconstructed with
        | val w =>
          rw [step_getObj_cached hfr hfind hslot] at h
          injection h with hv hs
          exact Option.noConfusion hv
        | unconstructed =>
          rw [step_getObj_new hfr hfind hslot] at h
          cases hr : step f (.newProvider fid p) s with
          | ok ov s₂ =>
            rw [hr] at h
            cases ov with
            | some w => injection h with hv hs; exact Option.noConfusion hv
            | none =>
              have hsh := step_shape f (.newProvider fid p) s
              rw [hr] at hsh
              exact absurd rfl (hsh.1 rfl)
          | err e s₂ => rw [hr] at h; exact StepRes.noConfusion h
          | timeout => rw [hr] at h; exact StepRes.noConfusion h

/-- After a successful lookup, the hit slot holds the returned value. -/
theorem getObj_some_inv {f fid kid : Nat} {s s₁ : DIState} {v : Value}
    (hwf : s.wf)
    (h : step f (.getObjByKeyId fid kid) s = .ok (some v) s₁) :
    ∃ fr₁ i p, s₁.frame? fid = some fr₁ ∧ findProvider fr₁.providers kid = some (i, p) ∧
      fr₁.objs.getD i .unconstructed = .val v := by
  cases f with
  | zero => exact StepRes.noConfusion h
  | succ f =>
    cases hfr : s.frame? fid with
    | none =>
      rw [step_getObj_noframe hfr] at h
      injection h with hv hs
      exact Option.noConfusion hv
    | some fr =>
      cases hfind : findProvider fr.providers kid with
      | none =>
        rw [step_getObj_nofind hfr hfind] at h
        injection h with hv hs
        exact Option.noConfusion hv
      | some ip =>
        obtain ⟨i, p⟩ := ip
        cases hslot : fr.objs.getD i .unconstructed with
        | val w =>
          rw [step_getObj_cached hfr hfind hslot] at h
          injection h with hv hs
          injection hv with hv
          refine ⟨fr, i, p, ?_, hfind, ?_⟩
          · rw [← hs]; exact hfr
          · rw [hslot, hv]
        | unconstructed =>
          rw [step_getObj_new hfr hfind hslot] at h
          cases hr : step f (.newProvider fid p) s with
          | ok ov s₂ =>
            rw [hr] at h
            cases ov with
            | some w =>
              injection h with hv hs
              injection hv with hv
              subst hv
              have hpres : Pres s s₂ := pres_of_step_ok hr
              obtain ⟨fr₂, hfr₂, hp₂, -, hl₂⟩ := pres_frame_some hpres hfr
              have hilt : i < fr₂.objs.length := by
                rw [hl₂, hwf fid fr hfr]
                exact findProvider_lt hfind
              have hfid : fid < s₂.frames.length := by
                by_contra hge
                rw [show s₂.frame? fid = s₂.frames.get? fid from rfl,
                  List.get?_eq_none.mpr (Nat.le_of_not_lt hge)] at hfr₂
                exact Option.noConfusion hfr₂
              refine ⟨{ fr₂ with objs := fr₂.objs.set i (.val w) }, i, p, ?_, ?_, ?_⟩
              · rw [← hs]
                show (s₂.setSlot fid i w).frame? fid = _
                unfold DIState.setSlot
                rw [show s₂.frames.get? fid = some fr₂ from hfr₂]
                show (s₂.frames.set fid _).get? fid = _
                rw [List.get?_set_of_lt' _ s₂.frames hfid, if_pos rfl]
              · show findProvider fr₂.providers kid = _
                rw [hp₂]
                exact hfind
              · show (fr₂.objs.set i (.val w)).getD i .unconstructed = .val w
                rw [List.getD_eq_getElem?_getD, List.getElem?_set_eq_of_lt _ hilt]
                rfl
            | none =>
              have hsh := step_shape f (.newProvider fid p) s
              rw [hr] at hsh
              exact absurd rfl (hsh.1 rfl)
          | err e s₂ => rw [hr] at h; exact StepRes.noConfusion h
          | timeout => rw [hr] at h; exact StepRes.noConfusion h

/-- Rerunning a successful lookup is a pure cache hit. -/
theorem getObj_idem {f f' fid kid : Nat} {s s₁ : DIState} {v : Value}
    (hwf : s.wf)
    (h : step f (.getObjByKeyId fid kid) s = .ok (some v) s₁) :
    step (f' + 1) (.getObjByKeyId fid kid) s₁ = .ok (some v) s₁ := by
  obtain ⟨fr₁, i, p, hfr, hfind, hslot⟩ := getObj_some_inv hwf h
  simp only [step, hfr, hfind, hslot]

/-- Unfolding equation for the parent-chain walk at a reflective
injector. -/
theorem step_walk_injector {f selfFid fid : Nat} {key : ReflectiveKey} {nf : Value}
    {s : DIState} :
    step (f + 1) (.walkChain selfFid (.injector fid) key nf) s =
      (match step f (.getObjByKeyId fid key.id) s with
        | .ok (some v) s₁ => .ok (some v) s₁
        | .ok none s₁ =>
          step f (.walkChain selfFid (((s₁.frame? fid).map Frame.parent).getD .noParent) key nf) s₁
        | r => r) := by
  simp only [step]

/-- Rerunning a successful parent-chain walk returns the same value and
leaves the state unchanged. -/
theorem walk_idem : ∀ {f : Nat} {selfFid : Nat} {inj : ParentRef} {key : ReflectiveKey}
    {nf : Value} {s s₁ : DIState} {v : Option Value},
    s.wf →
    step f (.walkChain selfFid inj key nf) s = .ok v s₁ →
    step f (.walkChain selfFid inj key nf) s₁ = .ok v s₁ := by
  intro f
  induction f with
  | zero => intro selfFid inj key nf s s₁ v _ h; exact StepRes.noConfusion h
  | succ f ih =>
    intro selfFid inj key nf s s₁ v hwf h
    cases inj with
    | noParent =>
      have h' : throwOrNull key nf s = .ok v s₁ := h
      obtain ⟨rfl, rfl⟩ := throwOrNull_ok_inv h'
      exact h
    | nullInjector =>
      have h' : nullInjectorGetInner key.token nf s = .ok v s₁ := h
      obtain ⟨rfl, rfl⟩ := nullInner_ok_inv h'
      exact h
    | injector fid =>
      rw [step_walk_injector] at h
      cases hr : step f (.getObjByKeyId fid key.id) s with
      | ok ov s₂ =>
        rw [hr] at h
        cases ov with
        | some w =>
          injection h with hv hs
          subst hv hs
          cases f with
          | zero => exact StepRes.noConfusion hr
          | succ f' =>
            rw [step_walk_injector, getObj_idem hwf hr]
        | none =>
          obtain ⟨hs2, hnofind⟩ := getObj_none_inv hr
          rw [hs2] at hr h
          have h' : step f (.walkChain selfFid (((s.frame? fid).map Frame.parent).getD .noParent) key nf) s = .ok v s₁ := h
          have hpres : Pres s s₁ := pres_of_step_ok h'
          have hih := ih hwf h'
          rw [step_walk_injector]
          have hobj₁ : step f (.getObjByKeyId fid key.id) s₁ = .ok none s₁ := by
            cases f with
            | zero => exact StepRes.noConfusion h'
            | succ f' =>
              cases hfr : s.frame? fid with
              | none => exact step_getObj_noframe (pres_frame_none hpres hfr)
              | some fr =>
                obtain ⟨fr₁, hfr₁, hp₁, -, -⟩ := pres_frame_some hpres hfr
                refine step_getObj_nofind hfr₁ ?_
                rw [hp₁]
                exact hnofind fr hfr
          rw [hobj₁]
          show step f (.walkChain selfFid (((s₁.frame? fid).map Frame.parent).getD .noParent) key nf) s₁ = .ok v s₁
          rw [pres_parentD hpres fid]
          exact hih
      | err e s₂ => rw [hr] at h; exact StepRes.noConfusion h
      | timeout => rw [hr] at h; exact StepRes.noConfusion h

/-- Unfolding equations for the dispatch layers of `getByKey`. -/
theorem step_getByKeySelf_eq {f fid : Nat} {key : ReflectiveKey} {nf : Value} {s : DIState} :
    step (f + 1) (.getByKeySelf fid key nf) s =
      (match step f (.getObjByKeyId fid key.id) s with
        | .ok (some v) s₁ => .ok (some v) s₁
        | .ok none s₁ => throwOrNull key nf s₁
        | r => r) := by
  simp only [step]

theorem getByKeySelf_idem {f fid : Nat} {key : ReflectiveKey} {nf : Value}
    {s s₁ : DIState} {v : Option Value} (hwf : s.wf)
    (h : step f (.getByKeySelf fid key nf) s = .ok v s₁) :
    step f (.getByKeySelf fid key nf) s₁ = .ok v s₁ := by
  cases f with
  | zero => exact StepRes.noConfusion h
  | succ f =>
    rw [step_getByKeySelf_eq] at h
    cases hr : step f (.getObjByKeyId fid key.id) s with
    | ok ov s₂ =>
      rw [hr] at h
      cases ov with
      | some w =>
        injection h with hv hs
        subst hv hs
        cases f with
        | zero => exact StepRes.noConfusion hr
        | succ f' =>
          rw [step_getByKeySelf_eq, getObj_idem hwf hr]
      | none =>
        obtain ⟨hs2, -⟩ := getObj_none_inv hr
        rw [hs2] at hr h
        have h' : throwOrNull key nf s = .ok v s₁ := h
        obtain ⟨hs1, -⟩ := throwOrNull_ok_inv h'
        rw [hs1] at h'
        rw [step_getByKeySelf_eq, hs1, hr]
        exact h'

    | err e s₂ => rw [hr] at h; exact StepRes.noConfusion h
    | timeout => rw [hr] at h; exact StepRes.noConfusion h

theorem getByKeyDefault_idem {f fid : Nat} {key : ReflectiveKey} {nf : Value}
    {vis : Option Visibility} {s s₁ : DIState} {v : Option Value} (hwf : s.wf)
    (h : step f (.getByKeyDefault fid key nf vis) s = .ok v s₁) :
    step f (.getByKeyDefault fid key nf vis) s₁ = .ok v s₁ := by
  cases f with
  | zero => exact StepRes.noConfusion h
  | succ f =>
    cases vis with
    | none =>
      have h' : step f (.walkChain fid (.injector fid) key nf) s = .ok v s₁ := h
      exact walk_idem hwf h'
    | some vis =>
      cases vis with
      | selfVis =>
        have h' : step f (.walkChain fid (.injector fid) key nf) s = .ok v s₁ := h
        exact walk_idem hwf h'
      | skipSelf =>
        have h' : step f (.walkChain fid (((s.frame? fid).map Frame.parent).getD .noParent) key nf) s = .ok v s₁ := h
        have hpres : Pres s s₁ := pres_of_step_ok h'
        show step f (.walkChain fid (((s₁.frame? fid).map Frame.parent).getD .noParent) key nf) s₁ = .ok v s₁
        rw [pres_parentD hpres fid]
        exact walk_idem hwf h'

theorem getByKey_idem {f fid : Nat} {key : ReflectiveKey} {vis : Option Visibility}
    {nf : Value} {s s₁ : DIState} {v : Option Value} (hwf : s.wf)
    (h : step f (.getByKey fid key vis nf) s = .ok v s₁) :
    step f (.getByKey fid key vis nf) s₁ = .ok v s₁ := by
  cases f with
  | zero => exact StepRes.noConfusion h
  | succ f =>
    by_cases hk : key.id = injectorKeyId
    · have h' : StepRes.ok (some (Value.injectorRef fid)) s = .ok v s₁ := by
        rw [← h]
        simp only [step, if_pos hk]
      injection h' with hv hs
      subst hv hs
      simp only [step, if_pos hk]
    · cases vis with
      | none =>
        simp only [step, if_neg hk] at h ⊢
        exact getByKeyDefault_idem hwf h
      | some vis =>
        cases vis with
        | selfVis =>
          simp only [step, if_neg hk] at h ⊢
          exact getByKeySelf_idem hwf h
        | skipSelf =>
          simp only [step, if_neg hk] at h ⊢
          exact getByKeyDefault_idem hwf h

/-- `KeyRegistry.find` hits a freshly appended binding. -/
theorem find_append_self {r : KeyRegistry} {t : Token} (k : ReflectiveKey)
    (h : r.find t = none) : KeyRegistry.find (r ++ [(t, k)]) t = some k := by
  induction r with
  | nil => simp [KeyRegistry.find]
  | cons a rest ih =>
    obtain ⟨t', k'⟩ := a
    simp only [KeyRegistry.find] at h
    rw [List.cons_append]
    simp only [KeyRegistry.find]
    split at h
    · exact Option.noConfusion h
    · next hne => rw [if_neg hne]; exact ih h

/-- Registering the same token again returns the same key and leaves the
registry unchanged. -/
theorem keyRegistry_get_tok_idem {r r₁ : KeyRegistry} {t : Token} {k : ReflectiveKey}
    (h : KeyRegistry.get r (.tok t) = .ok (k, r₁)) :
    KeyRegistry.get r₁ (.tok t) = .ok (k, r₁) := by
  simp only [KeyRegistry.get] at h ⊢
  cases hf : r.find t with
  | some k₀ =>
    rw [hf] at h
    injection h with h'
    obtain ⟨hk, hr⟩ := Prod.mk.injEq .. ▸ h'
    subst hk
    rw [← hr, hf]
  | none =>
    rw [hf] at h
    cases hmk : mkReflectiveKey t r.numberOfKeys with
    | error e => rw [hmk] at h; exact Except.noConfusion h
    | ok nk =>
      rw [hmk] at h
      injection h with h'
      obtain ⟨hk, hr⟩ := Prod.mk.injEq .. ▸ h'
      subst hk
      rw [← hr, find_append_self nk hf]

/-- Repeating a successful `get` returns the identical value (reference
equality) and does not change the state: the caching theorem for
`ReflectiveInjector_.get`. -/
theorem injectorGet_idem {fuel fid : Nat} {s s₁ : DIState} {tok : Token}
    {arg : Option Value} {v : Option Value} (hwf : s.wf)
    (h : injectorGet fuel s fid tok arg = .ok v s₁) :
    injectorGet fuel s₁ fid tok arg = .ok v s₁ := by
  unfold injectorGet at h ⊢
  cases hreg : reflectiveKeyGet s.registry (.tok tok) with
  | error e => rw [hreg] at h; exact StepRes.noConfusion h
  | ok kr =>
    obtain ⟨key, reg⟩ := kr
    rw [hreg] at h
    have h' : step fuel (.getByKey fid key none (defaultArg arg .sentinelRTIF))
        { s with registry := reg } = .ok v s₁ := h
    have hwf' : DIState.wf { s with registry := reg } := fun fid fr hf => hwf fid fr hf
    have hpres : Pres { s with registry := reg } s₁ := pres_of_step_ok h'
    have hreg₁ : s₁.registry = reg := hpres.1
    have hregIdem : reflectiveKeyGet s₁.registry (.tok tok) = .ok (key, s₁.registry) := by
      rw [hreg₁]
      exact keyRegistry_get_tok_idem hreg
    rw [hregIdem]
    show step fuel (.getByKey fid key none (defaultArg arg .sentinelRTIF))
      { s₁ with registry := s₁.registry } = .ok v s₁
    have hs₁ : { s₁ with registry := s₁.registry } = s₁ := rfl
    rw [hs₁]
    exact getByKey_idem hwf' h'

/-! ### Scenario states

Concrete container families used to settle the claims; tokens stay
universally quantified wherever the claim quantifies over providers.
The registries below mirror the state of the global key registry after
resolution has registered the scenario's class tokens (ids 1 and 2; id
0 belongs to the `Injector` token). -/

theorem wf_of_all {s : DIState}
    (h : s.frames.all (fun fr => decide (fr.objs.length = fr.providers.length)) = true) :
    s.wf := by
  intro fid fr hf
  exact of_decide_eq_true (List.all_eq_true.mp h fr (List.get?_mem hf))

/-! ### C6 — key registry: idempotent identity, dense append-only ids -/

theorem find_none_forall {r : KeyRegistry} {t : Token} (h : r.find t = none) :
    ∀ e ∈ r, t ≠ e.1 := by
  induction r with
  | nil => intro e he; exact absurd he (List.not_mem_nil e)
  | cons a rest ih =>
    obtain ⟨t', k'⟩ := a
    simp only [KeyRegistry.find] at h
    intro e he
    rcases List.mem_cons.mp he with rfl | hmem
    · split at h
      · exact Option.noConfusion h
      · next hne => exact hne
    · split at h
      · exact Option.noConfusion h
      · exact ih h e hmem

/-- C6, proved: `KeyRegistry.get` is idempotent on tokens (the same
`Key` object comes back and the registry does not change again); an
argument that is already a `Key` is returned unchanged; a fresh token
is assigned the key whose id is the registry's current count of keys
and is appended; and on a well-formed registry every `get` preserves
well-formedness (ids equal registration positions: dense, append-only)
while only ever appending (the old registry is a prefix of the new
one), so ids are never reused or reassigned. -/
theorem c6_registry_idempotent_dense :
    (∀ (r r₁ : KeyRegistry) (t : Token) (k : ReflectiveKey),
        KeyRegistry.get r (.tok t) = .ok (k, r₁) →
        KeyRegistry.get r₁ (.tok t) = .ok (k, r₁)) ∧
    (∀ (r : KeyRegistry) (k : ReflectiveKey), KeyRegistry.get r (.key k) = .ok (k, r)) ∧
    (∀ (r : KeyRegistry) (t : Token), r.find t = none → t.truthy = true →
        KeyRegistry.get r (.tok t) =
          .ok (⟨t, r.numberOfKeys, stringify t⟩, r ++ [(t, ⟨t, r.numberOfKeys, stringify t⟩)])) ∧
    (∀ (r r₁ : KeyRegistry) (t : Token) (k : ReflectiveKey), r.wf →
        KeyRegistry.get r (.tok t) = .ok (k, r₁) → r₁.wf ∧ r <+: r₁) := by
  refine ⟨fun r r₁ t k h => keyRegistry_get_tok_idem h, fun r k => rfl, ?_, ?_⟩
  · intro r t hfind htr
    simp only [KeyRegistry.get, hfind, mkReflectiveKey, htr, Bool.not_true, Bool.false_eq_true,
      if_false]
  · intro r r₁ t k hwf h
    simp only [KeyRegistry.get] at h
    cases hfind : r.find t with
    | some k₀ =>
      rw [hfind] at h
      injection h with h'
      obtain ⟨-, hr⟩ := Prod.mk.injEq .. ▸ h'
      subst hr
      exact ⟨hwf, List.prefix_refl r⟩
    | none =>
      rw [hfind] at h
      cases hmk : mkReflectiveKey t r.numberOfKeys with
      | error e => rw [hmk] at h; exact Except.noConfusion h
      | ok nk =>
        rw [hmk] at h
        injection h with h'
        obtain ⟨hk, hr⟩ := Prod.mk.injEq .. ▸ h'
        subst hk
        subst hr
        have hnk : nk = ⟨t, r.length, stringify t⟩ := by
          unfold mkReflectiveKey at hmk
          split at hmk
          · exact Except.noConfusion hmk
          · injection hmk with hmk; exact hmk.symm
        refine ⟨⟨?_, ?_⟩, ⟨[(t, nk)], rfl⟩⟩
        · intro i e hi
          by_cases hlt : i < r.length
          · rw [List.get?_append hlt] at hi
            exact hwf.1 i e hi
          · by_cases heq : i = r.length
            · subst heq
              rw [List.get?_concat_length] at hi
              injection hi with hi
              subst hi
              rw [hnk]
              exact ⟨rfl, rfl⟩
            · rw [List.get?_eq_none.mpr] at hi
              · exact Option.noConfusion hi
              · simp only [List.length_append, List.length_cons, List.length_nil]
                omega
        · rw [List.pairwise_append]
          refine ⟨hwf.2, List.pairwise_singleton _ _, ?_⟩
          intro a ha b hb
          rw [List.mem_singleton.mp hb]
          exact fun hh => (find_none_forall hfind a ha) hh.symm

/-- Witness for C6 at a concrete registry and tokens. -/
theorem c6_witness :
    KeyRegistry.get [] (.tok (.obj 5 "T")) =
      .ok (⟨.obj 5 "T", 0, "T"⟩, [(.obj 5 "T", ⟨.obj 5 "T", 0, "T"⟩)]) ∧
    KeyRegistry.get [(Token.obj 5 "T", ⟨Token.obj 5 "T", 0, "T"⟩)] (.tok (.obj 5 "T")) =
      .ok (⟨.obj 5 "T", 0, "T"⟩, [(.obj 5 "T", ⟨.obj 5 "T", 0, "T"⟩)]) ∧
    KeyRegistry.wf [(Token.obj 5 "T", ⟨Token.obj 5 "T", 0, "T"⟩)] := by
  have h1 : KeyRegistry.get [] (.tok (.obj 5 "T")) =
      .ok (⟨.obj 5 "T", 0, "T"⟩, [(.obj 5 "T", ⟨.obj 5 "T", 0, "T"⟩)]) :=
    c6_registry_idempotent_dense.2.2.1 [] (.obj 5 "T") rfl rfl
  have h2 := c6_registry_idempotent_dense.1 [] _ (.obj 5 "T") _ h1
  have h3 := (c6_registry_idempotent_dense.2.2.2 [] _ (.obj 5 "T") _
    ⟨fun i e hi => absurd hi (by simp), List.Pairwise.nil⟩ h1).1
  exact ⟨h1, h2, h3⟩

/-! ### C9 — Key construction for falsy tokens -/

/-- C9, counterexample: constructing keys for two different falsy
tokens (`null` and `0`) raises the identical plain
`Error("Token must be defined!")`, so the raised error cannot carry the
offending token, contradicting the claim that an `InvalidTokenError`
carrying the token is raised. -/
theorem c9_counterexample :
    mkReflectiveKey Token.nullTok 0 = .error (.plainError "Token must be defined!") ∧
    mkReflectiveKey (Token.num 0) 0 = mkReflectiveKey Token.nullTok 0 :=
  ⟨rfl, rfl⟩

/-- C9, amended: constructing a Key for a falsy token (`null`,
`undefined`, `0`, the empty string, `false`) fails with a plain
`Error` whose message is "Token must be defined!" and which does not
carry the offending token; for every truthy token, construction
succeeds and sets the display name from the token
(`stringify(token)`). -/
theorem c9_falsy_token_error :
    (∀ (t : Token) (id : Nat), t.truthy = false →
        mkReflectiveKey t id = .error (.plainError "Token must be defined!")) ∧
    (∀ (t : Token) (id : Nat), t.truthy = true →
        mkReflectiveKey t id = .ok ⟨t, id, stringify t⟩) := by
  constructor
  · intro t id ht
    unfold mkReflectiveKey
    rw [ht]
    rfl
  · intro t id ht
    unfold mkReflectiveKey
    rw [ht]
    rfl

/-- Witness for C9 (amended) at concrete falsy and truthy tokens. -/
theorem c9_witness :
    mkReflectiveKey (Token.str "") 3 = .error (.plainError "Token must be defined!") ∧
    mkReflectiveKey (Token.obj 4 "Car") 3 = .ok ⟨Token.obj 4 "Car", 3, "Car"⟩ :=
  ⟨c9_falsy_token_error.1 (Token.str "") 3 rfl,
   c9_falsy_token_error.2 (Token.obj 4 "Car") 3 rfl⟩

/-! ### C1 — singleton caching versus fresh instantiation -/

/-- C1 (amended), proved.  First conjunct: repeated `get` is a cache
hit — if a `get` succeeds with value `v` and final state `s₁`, running
the same `get` again returns the identical value (reference equality in
the value model) and leaves the state exactly `s₁`: the instance is
constructed at most once and then served from the provider's slot.
Second conjunct: `instantiateResolved` on a resolved class provider
allocates a fresh instance on every call — two successive calls return
the distinct references `ref nextRef` and `ref (nextRef + 1)` — and
changes nothing but the allocation counter (in particular it writes no
cache slot for the instantiated provider: the frames are unchanged).
The claim's stronger clauses fail on the code, see the
counterexample. -/
theorem c1_singleton_per_container :
    (∀ (fuel fid : Nat) (s s₁ : DIState) (tok : Token) (arg v : Option Value),
        s.wf →
        injectorGet fuel s fid tok arg = .ok v s₁ →
        injectorGet fuel s₁ fid tok arg = .ok v s₁) ∧
    (∀ (f fid : Nat) (s : DIState) (key : ReflectiveKey),
        instantiateResolved (f + 1 + 1 + 1) s fid (resolveClassProvider key) =
          .ok (some (.ref s.nextRef)) { s with nextRef := s.nextRef + 1 } ∧
        instantiateResolved (f + 1 + 1 + 1) { s with nextRef := s.nextRef + 1 } fid
            (resolveClassProvider key) =
          .ok (some (.ref (s.nextRef + 1))) { s with nextRef := s.nextRef + 2 } ∧
        Value.ref s.nextRef ≠ Value.ref (s.nextRef + 1)) := by
  constructor
  · intro fuel fid s s₁ tok arg v hwf h
    exact injectorGet_idem hwf h
  · intro f fid s key
    refine ⟨?_, ?_, ?_⟩
    · simp [instantiateResolved, resolveClassProvider, step, FactoryFn.apply]
    · simp [instantiateResolved, resolveClassProvider, step, FactoryFn.apply]
    · intro h
      injection h with h
      omega

/-- C1, counterexample.  First conjunct: for a resolved provider whose
factory returns a fixed object (`useValue` with an object value, here
reference `99`), `instantiateResolved` returns that same reference on
every call — the state is unchanged, so the second call is the very
same call and yields reference `99` again, refuting "never return the
same reference twice".  Second conjunct: instantiating a provider with
a dependency caches the dependency: after `instantiateResolved` of a
`Car`-style provider, the container's `Engine` slot has been written
(`unconstructed` to `val (ref 0)`), refuting "never write any
provider's cache slot". -/
theorem c1_counterexample :
    instantiateResolved 10
        { frames := [⟨[⟨⟨.obj 1 "V", 1, "V"⟩, [⟨.constVal (.ref 99), []⟩], false⟩],
            [.unconstructed], 0, .noParent⟩],
          registry := initRegistry, nextRef := 100 } 0
        ⟨⟨.obj 1 "V", 1, "V"⟩, [⟨.constVal (.ref 99), []⟩], false⟩ =
      .ok (some (.ref 99))
        { frames := [⟨[⟨⟨.obj 1 "V", 1, "V"⟩, [⟨.constVal (.ref 99), []⟩], false⟩],
            [.unconstructed], 0, .noParent⟩],
          registry := initRegistry, nextRef := 100 } ∧
    instantiateResolved 20
        { frames := [⟨[resolveClassProvider ⟨.obj 2 "Engine", 1, "Engine"⟩],
            [.unconstructed], 0, .noParent⟩],
          registry := initRegistry, nextRef := 0 } 0
        ⟨⟨.obj 3 "Car", 2, "Car"⟩, [⟨.construct, [⟨⟨.obj 2 "Engine", 1, "Engine"⟩, false, none⟩]⟩], false⟩ =
      .ok (some (.ref 1))
        { frames := [⟨[resolveClassProvider ⟨.obj 2 "Engine", 1, "Engine"⟩],
            [.val (.ref 0)], 1, .noParent⟩],
          registry := initRegistry, nextRef := 2 } :=
  ⟨rfl, rfl⟩

/-- Witness for C1: a concrete `useValue` container — `get` constructs
once, caches, and the repeated `get` returns the identical value with
no state change; and `instantiateResolved` of a class provider returns
fresh references `ref 0` then `ref 1`. -/
theorem c1_witness :
    injectorGet 12 (valStateAfter (.obj 1 "W") (.numV 7)) 0 (.obj 1 "W") none =
      .ok (some (.numV 7)) (valStateAfter (.obj 1 "W") (.numV 7)) ∧
    instantiateResolved 3 (valState (.obj 1 "W") (.numV 7)) 0
        (resolveClassProvider (classKey (.obj 1 "W") 1)) =
      .ok (some (.ref 0)) { valState (.obj 1 "W") (.numV 7) with nextRef := 1 } := by
  constructor
  · exact c1_singleton_per_container.1 12 0 (valState (.obj 1 "W") (.numV 7))
      (valStateAfter (.obj 1 "W") (.numV 7)) (.obj 1 "W") none (some (.numV 7))
      (wf_of_all (by rfl)) (by rfl)
  · exact (c1_singleton_per_container.2 0 0 (valState (.obj 1 "W") (.numV 7))
      (classKey (.obj 1 "W") 1)).1

/-! ### C2 — parent and child visibility -/

/-- C2, proved: with `parent = resolveAndCreate([A])` (frame 0) and
`child = parent.resolveAndCreateChild([B])` (frame 1), for any two
distinct ordinary class tokens: `child.get(A)` constructs the instance
in the parent frame and returns reference 0; `parent.get(A)` then
returns the identical reference (and the state is unchanged — the same
singleton); `child.get(B)` succeeds (reference 1, cached in the
child); and `parent.get(B)` with no default fails with
`NoProviderError` for `B`, leaving the state unchanged. -/
theorem c2_child_visibility (tA tB : Token) (h1 : tA ≠ injectorToken)
    (h2 : tB ≠ injectorToken) (h3 : tA ≠ tB) :
    injectorGet 12 (parentChildSetup tA tB).1 1 tA none =
        .ok (some (.ref 0)) (pcAfterA tA tB) ∧
    injectorGet 12 (pcAfterA tA tB) 0 tA none =
        .ok (some (.ref 0)) (pcAfterA tA tB) ∧
    injectorGet 12 (pcAfterA tA tB) 1 tB none =
        .ok (some (.ref 1)) (pcAfterAB tA tB) ∧
    injectorGet 12 (pcAfterAB tA tB) 0 tB none =
        .err (.noProvider [(2, stringify tB)]) (pcAfterAB tA tB) := by
  refine ⟨?_, ?_, ?_, ?_⟩
  · simp [injectorGet, reflectiveKeyGet, KeyRegistry.get, KeyRegistry.find,
      parentChildSetup, pcAfterA, twoTokenRegistry, fromResolvedProviders,
      createChildFromResolved, blankState, initRegistry, classKey, resolveClassProvider,
      defaultArg, h1, h3, step, injectorKeyId, DIState.frame?, DIState.setSlot,
      DIState.bumpCounter, findProvider, Frame.maxNumberOfObjects, FactoryFn.apply,
      throwOrNull, Value.isSentinelRTIF]
  · simp [injectorGet, reflectiveKeyGet, KeyRegistry.get, KeyRegistry.find,
      pcAfterA, twoTokenRegistry, initRegistry, classKey, resolveClassProvider,
      defaultArg, h1, h3, step, injectorKeyId, DIState.frame?, DIState.setSlot,
      DIState.bumpCounter, findProvider, Frame.maxNumberOfObjects, FactoryFn.apply,
      throwOrNull, Value.isSentinelRTIF]
  · simp [injectorGet, reflectiveKeyGet, KeyRegistry.get, KeyRegistry.find,
      pcAfterA, pcAfterAB, twoTokenRegistry, initRegistry, classKey, resolveClassProvider,
      defaultArg, h2, h3, Ne.symm h3, step, injectorKeyId, DIState.frame?, DIState.setSlot,
      DIState.bumpCounter, findProvider, Frame.maxNumberOfObjects, FactoryFn.apply,
      throwOrNull, Value.isSentinelRTIF]
  · simp [injectorGet, reflectiveKeyGet, KeyRegistry.get, KeyRegistry.find,
      pcAfterAB, twoTokenRegistry, initRegistry, classKey, resolveClassProvider,
      defaultArg, h2, h3, Ne.symm h3, step, injectorKeyId, DIState.frame?, DIState.setSlot,
      DIState.bumpCounter, findProvider, Frame.maxNumberOfObjects, FactoryFn.apply,
      throwOrNull, Value.isSentinelRTIF, noProviderError, ReflectiveKey.chainEntry]

/-- Witness for C2 at concrete tokens. -/
theorem c2_witness :
    injectorGet 12 (parentChildSetup (.obj 1 "A") (.obj 2 "B")).1 1 (.obj 1 "A") none =
      .ok (some (.ref 0)) (pcAfterA (.obj 1 "A") (.obj 2 "B")) :=
  (c2_child_visibility (.obj 1 "A") (.obj 2 "B") (by decide) (by decide) (by decide)).1

/-! ### C3 — missing provider: throw or default -/

/-- A present (non-`undefined`) default argument survives the compiled
default-parameter substitution. -/
theorem defaultArg_some {D : Value} (h : D ≠ .undef) (sent : Value) :
    defaultArg (some D) sent = D := by
  cases D with
  | undef => exact absurd rfl h
  | nullV => rfl
  | numV n => rfl
  | strV a => rfl
  | boolV b => rfl
  | ref r => rfl
  | arrV vs => rfl
  | injectorRef q => rfl
  | sentinelRTIF => rfl
  | sentinelCTIF => rfl

/-- C3 (amended), proved.  For a token with no provider: the Null
Container itself throws the no-provider failure without a default and
returns any non-`undefined`, non-sentinel default unchanged; an empty
reflective container (no parent) fails with `NoProviderError` without a
default and returns such a default unchanged; an empty
reflective-inside-reflective chain likewise fails with
`NoProviderError`; but a reflective container whose parent is the Null
Container *returns the internal `THROW_IF_NOT_FOUND` sentinel object*
instead of throwing when no default is supplied (the module-local
sentinel of `reflective_injector.ts` is a different object from the
`injector_compatibility` sentinel that `NullInjector` compares
against), and returns a supplied default unchanged.  Passing
`undefined` as the default selects the compiled default parameter and
therefore throws (see the counterexample). -/
theorem c3_no_provider_throw_or_default (t : Token) (D : Value) (h0 : t ≠ injectorToken)
    (hD1 : D ≠ .undef) (hD2 : D.isSentinelRTIF = false) (hD3 : D.isSentinelCTIF = false) :
    nullInjectorGet t none = .error (.plainError ("No provider for " ++ stringify t ++ "!")) ∧
    nullInjectorGet t (some D) = .ok D ∧
    injectorGet 10 (emptyRefl t) 0 t none =
      .err (.noProvider [(1, stringify t)]) (emptyRefl t) ∧
    injectorGet 10 (emptyRefl t) 0 t (some D) = .ok (some D) (emptyRefl t) ∧
    injectorGet 10 (chainRefl t) 1 t none =
      .err (.noProvider [(1, stringify t)]) (chainRefl t) ∧
    injectorGet 10 (nullParentRefl t) 0 t none = .ok (some .sentinelRTIF) (nullParentRefl t) ∧
    injectorGet 10 (nullParentRefl t) 0 t (some D) = .ok (some D) (nullParentRefl t) := by
  refine ⟨?_, ?_, ?_, ?_, ?_, ?_, ?_⟩
  · rfl
  · simp [nullInjectorGet, defaultArg_some hD1, hD3]
  · simp [injectorGet, reflectiveKeyGet, KeyRegistry.get, KeyRegistry.find, emptyRefl,
      oneTokenRegistry, fromResolvedProviders, blankState, initRegistry, classKey,
      defaultArg, h0, step, injectorKeyId, DIState.frame?, findProvider, throwOrNull,
      Value.isSentinelRTIF, noProviderError, ReflectiveKey.chainEntry]
  · simp [injectorGet, reflectiveKeyGet, KeyRegistry.get, KeyRegistry.find, emptyRefl,
      oneTokenRegistry, fromResolvedProviders, blankState, initRegistry, classKey,
      defaultArg_some hD1, h0, step, injectorKeyId, DIState.frame?, findProvider,
      throwOrNull, hD2]
  · simp [injectorGet, reflectiveKeyGet, KeyRegistry.get, KeyRegistry.find, chainRefl,
      oneTokenRegistry, fromResolvedProviders, createChildFromResolved, blankState,
      initRegistry, classKey, defaultArg, h0, step, injectorKeyId, DIState.frame?,
      findProvider, throwOrNull, Value.isSentinelRTIF, noProviderError,
      ReflectiveKey.chainEntry]
  · simp [injectorGet, reflectiveKeyGet, KeyRegistry.get, KeyRegistry.find, nullParentRefl,
      oneTokenRegistry, fromResolvedProviders, blankState, initRegistry, classKey,
      defaultArg, h0, step, injectorKeyId, DIState.frame?, findProvider,
      nullInjectorGetInner, Value.isSentinelCTIF]
  · simp [injectorGet, reflectiveKeyGet, KeyRegistry.get, KeyRegistry.find, nullParentRefl,
      oneTokenRegistry, fromResolvedProviders, blankState, initRegistry, classKey,
      defaultArg_some hD1, h0, step, injectorKeyId, DIState.frame?, findProvider,
      nullInjectorGetInner, hD3]

/-- C3, counterexample (closed).  First conjunct: `get(T, undefined)`
on an empty reflective container throws `NoProviderError` instead of
returning `undefined` — in the compiled JavaScript an explicitly passed
`undefined` argument selects the `THROW_IF_NOT_FOUND` default
parameter.  Second conjunct: an empty reflective container whose parent
is the Null Container returns the module-internal sentinel object from
a defaultless `get` instead of failing with `NoProviderError`. -/
theorem c3_counterexample :
    injectorGet 10 (emptyRefl (.obj 1 "T")) 0 (.obj 1 "T") (some .undef) =
      .err (.noProvider [(1, "T")]) (emptyRefl (.obj 1 "T")) ∧
    injectorGet 10 (nullParentRefl (.obj 1 "T")) 0 (.obj 1 "T") none =
      .ok (some .sentinelRTIF) (nullParentRefl (.obj 1 "T")) :=
  ⟨rfl, rfl⟩

/-- Witness for C3 at a concrete token and default. -/
theorem c3_witness :
    injectorGet 10 (emptyRefl (.obj 1 "T")) 0 (.obj 1 "T") (some (.strV "fallback")) =
      .ok (some (.strV "fallback")) (emptyRefl (.obj 1 "T")) :=
  (c3_no_provider_throw_or_default (.obj 1 "T") (.strV "fallback") (by decide)
    (fun h => Value.noConfusion h) rfl rfl).2.2.2.1

/-! ### C4 — cyclic dependencies and the construction-counter guard -/

/-- C4, proved.  First conjunct, the guard itself: `new` post-increments
the per-container construction counter before doing any work and, when
the counter already exceeds the number of provider slots, fails
immediately with `CyclicDependencyError` naming the provider — the only
state change is the counter increment.  Remaining conjuncts: a
self-referential provider, and each token of a mutually referential
pair, fail with `CyclicDependencyError` (rather than recursing
indefinitely — the run is a terminating computation producing the
error, with the counter having overflowed the slot count). -/
theorem c4_cyclic_dependency_guard :
    (∀ (f fid : Nat) (p : ResolvedReflectiveProvider) (s : DIState) (fr : Frame),
        s.frame? fid = some fr → fr.counter > fr.objs.length →
        step (f + 1) (.newProvider fid p) s =
          .err (cyclicDependencyError p.key) (s.bumpCounter fid)) ∧
    (∀ t : Token, t ≠ injectorToken →
        injectorGet 30 (selfCycleState t) 0 t none =
          .err (.cyclicDependency [(1, stringify t), (1, stringify t), (1, stringify t)])
            (selfCycleAfter t)) ∧
    (∀ tA tB : Token, tA ≠ injectorToken → tB ≠ injectorToken → tA ≠ tB →
        injectorGet 40 (mutualCycleState tA tB) 0 tA none =
          .err (.cyclicDependency [(2, stringify tB), (1, stringify tA),
              (2, stringify tB), (1, stringify tA)]) (mutualCycleAfter tA tB) ∧
        injectorGet 40 (mutualCycleState tA tB) 0 tB none =
          .err (.cyclicDependency [(1, stringify tA), (2, stringify tB),
              (1, stringify tA), (2, stringify tB)]) (mutualCycleAfter tA tB)) := by
  refine ⟨?_, ?_, ?_⟩
  · intro f fid p s fr hfr hc
    simp only [step, hfr, Option.map_some', Option.getD_some, Frame.maxNumberOfObjects]
    rw [if_pos hc]
  · intro t h0
    simp [injectorGet, reflectiveKeyGet, KeyRegistry.get, KeyRegistry.find, selfCycleState,
      selfCycleAfter, oneTokenRegistry, fromResolvedProviders, blankState, initRegistry,
      classKey, depProvider, defaultArg, h0, step, injectorKeyId, DIState.frame?,
      DIState.setSlot, DIState.bumpCounter, findProvider, Frame.maxNumberOfObjects,
      FactoryFn.apply, throwOrNull, Value.isSentinelRTIF, cyclicDependencyError,
      JsError.hasAddKey, JsError.addKey, ReflectiveKey.chainEntry, instantiationError]
  · intro tA tB h1 h2 h3
    constructor
    · simp [injectorGet, reflectiveKeyGet, KeyRegistry.get, KeyRegistry.find,
        mutualCycleState, mutualCycleAfter, twoTokenRegistry, fromResolvedProviders,
        blankState, initRegistry, classKey, depProvider, defaultArg, h1, h3, step,
        injectorKeyId, DIState.frame?, DIState.setSlot, DIState.bumpCounter, findProvider,
        Frame.maxNumberOfObjects, FactoryFn.apply, throwOrNull, Value.isSentinelRTIF,
        cyclicDependencyError, JsError.hasAddKey, JsError.addKey, ReflectiveKey.chainEntry,
        instantiationError]
    · simp [injectorGet, reflectiveKeyGet, KeyRegistry.get, KeyRegistry.find,
        mutualCycleState, mutualCycleAfter, twoTokenRegistry, fromResolvedProviders,
        blankState, initRegistry, classKey, depProvider, defaultArg, h2, h3, Ne.symm h3,
        step, injectorKeyId, DIState.frame?, DIState.setSlot, DIState.bumpCounter,
        findProvider, Frame.maxNumberOfObjects, FactoryFn.apply, throwOrNull,
        Value.isSentinelRTIF, cyclicDependencyError, JsError.hasAddKey, JsError.addKey,
        ReflectiveKey.chainEntry, instantiationError]

/-- Witness for C4 at concrete tokens and a concrete overflowed
counter. -/
theorem c4_witness :
    injectorGet 30 (selfCycleState (.obj 1 "A")) 0 (.obj 1 "A") none =
      .err (.cyclicDependency [(1, "A"), (1, "A"), (1, "A")]) (selfCycleAfter (.obj 1 "A")) ∧
    step 5 (.newProvider 0 (depProvider (classKey (.obj 1 "A") 1) (classKey (.obj 1 "A") 1)))
        (selfCycleAfter (.obj 1 "A")) =
      .err (cyclicDependencyError (classKey (.obj 1 "A") 1))
        ((selfCycleAfter (.obj 1 "A")).bumpCounter 0) :=
  ⟨(c4_cyclic_dependency_guard.2.1 (.obj 1 "A") (by decide)),
   c4_cyclic_dependency_guard.1 4 0 _ _
     ⟨[depProvider (classKey (.obj 1 "A") 1) (classKey (.obj 1 "A") 1)], [.unconstructed], 3,
       .noParent⟩ rfl (by decide)⟩

/-! ### C5 — Self and SkipSelf visibility -/

/-- C5, proved.  First conjunct (`Self`): on a container whose own
provider table has no slot for the key, a `Self`-scoped lookup fails
with `NoProviderError` and leaves the state untouched even when the
parent is a reflective injector whose table does contain a matching
binding — the parent is never consulted and nothing is constructed.
Second conjunct (`SkipSelf`): on a container whose own table does
contain a matching binding, a `SkipSelf`-scoped lookup starts at the
parent; when the parent (whose own parent is `null`) has no binding the
lookup fails with `NoProviderError` and leaves the state untouched —
the local binding is never used and its slot is never constructed. -/
theorem c5_self_skipself_visibility :
    (∀ (f fid pfid j : Nat) (s : DIState) (key : ReflectiveKey) (fr pfr : Frame)
        (q : ResolvedReflectiveProvider),
        key.id ≠ injectorKeyId →
        s.frame? fid = some fr →
        findProvider fr.providers key.id = none →
        fr.parent = .injector pfid →
        s.frame? pfid = some pfr →
        findProvider pfr.providers key.id = some (j, q) →
        step (f + 1 + 1 + 1) (.getByKey fid key (some .selfVis) .sentinelRTIF) s =
          .err (noProviderError key) s) ∧
    (∀ (f fid pfid i : Nat) (s : DIState) (key : ReflectiveKey) (fr pfr : Frame)
        (p : ResolvedReflectiveProvider),
        key.id ≠ injectorKeyId →
        s.frame? fid = some fr →
        findProvider fr.providers key.id = some (i, p) →
        fr.parent = .injector pfid →
        s.frame? pfid = some pfr →
        findProvider pfr.providers key.id = none →
        pfr.parent = .noParent →
        step (f + 1 + 1 + 1 + 1 + 1) (.getByKey fid key (some .skipSelf) .sentinelRTIF) s =
          .err (noProviderError key) s) := by
  constructor
  · intro f fid pfid j s key fr pfr q hk hfr hfind hpar hpfr hpfind
    simp [step, hk, hfr, hfind, throwOrNull, Value.isSentinelRTIF]
  · intro f fid pfid i s key fr pfr p hk hfr hfind hpar hpfr hpfind hppar
    simp [step, hk, hfr, hpar, hpfr, hpfind, hppar, throwOrNull, Value.isSentinelRTIF]

/-- Witness for C5: a concrete child (frame 1, binding for key 2 only)
under a concrete parent (frame 0, binding for key 1 only). -/
theorem c5_witness :
    step 13 (.getByKey 1 (classKey (.obj 1 "A") 1) (some .selfVis) .sentinelRTIF)
        (parentChildSetup (.obj 1 "A") (.obj 2 "B")).1 =
      .err (noProviderError (classKey (.obj 1 "A") 1))
        (parentChildSetup (.obj 1 "A") (.obj 2 "B")).1 ∧
    step 15 (.getByKey 1 (classKey (.obj 2 "B") 2) (some .skipSelf) .sentinelRTIF)
        (parentChildSetup (.obj 1 "A") (.obj 2 "B")).1 =
      .err (noProviderError (classKey (.obj 2 "B") 2))
        (parentChildSetup (.obj 1 "A") (.obj 2 "B")).1 :=
  ⟨c5_self_skipself_visibility.1 10 1 0 0 _ _
      ⟨[resolveClassProvider (classKey (.obj 2 "B") 2)], [.unconstructed], 0, .injector 0⟩
      ⟨[resolveClassProvider (classKey (.obj 1 "A") 1)], [.unconstructed], 0, .noParent⟩
      (resolveClassProvider (classKey (.obj 1 "A") 1)) (by decide) rfl rfl rfl rfl rfl,
   c5_self_skipself_visibility.2 10 1 0 0 _ _
      ⟨[resolveClassProvider (classKey (.obj 2 "B") 2)], [.unconstructed], 0, .injector 0⟩
      ⟨[resolveClassProvider (classKey (.obj 1 "A") 1)], [.unconstructed], 0, .noParent⟩
      (resolveClassProvider (classKey (.obj 2 "B") 2)) (by decide) rfl rfl rfl rfl rfl rfl⟩

/-! ### C7 — instantiation failures and the dependency chain -/

/-- C7, proved.  First conjunct: a factory that throws (original
message `m`, original stack `st`) surfaces to the `get` caller as
`InstantiationError` preserving that message and stack and carrying the
failing provider's key (id and display name) in its key chain — the
error's description.  Second conjunct: a dependency-resolution failure
during construction is propagated uncaught in its original shape
(`NoProviderError`, not an `InstantiationError`) with the current
provider's key appended to the dependency chain: the chain reads
innermost-first `B -> A`. -/
theorem c7_instantiation_error_wrapping (t tA tB : Token) (m st : String)
    (h0 : t ≠ injectorToken) (h1 : tA ≠ injectorToken) (h2 : tB ≠ injectorToken)
    (h3 : tA ≠ tB) :
    injectorGet 12 (throwState t m st) 0 t none =
      .err (.instantiation m st [(1, stringify t)]) (throwStateN t m st 1) ∧
    injectorGet 14 (depFailState tA tB) 0 tA none =
      .err (.noProvider [(2, stringify tB), (1, stringify tA)]) (depFailAfter tA tB) := by
  constructor
  · simp [injectorGet, reflectiveKeyGet, KeyRegistry.get, KeyRegistry.find, throwState,
      throwStateN, throwProvider, oneTokenRegistry, fromResolvedProviders, blankState,
      initRegistry, classKey, defaultArg, h0, step, injectorKeyId, DIState.frame?,
      DIState.bumpCounter, findProvider, Frame.maxNumberOfObjects, FactoryFn.apply,
      instantiationError, ReflectiveKey.chainEntry, JsError.hasAddKey, JsError.addKey]
  · simp [injectorGet, reflectiveKeyGet, KeyRegistry.get, KeyRegistry.find, depFailState,
      depFailAfter, depProvider, twoTokenRegistry, fromResolvedProviders, blankState,
      initRegistry, classKey, defaultArg, h1, h3, step, injectorKeyId, DIState.frame?,
      DIState.bumpCounter, findProvider, Frame.maxNumberOfObjects, FactoryFn.apply,
      throwOrNull, Value.isSentinelRTIF, noProviderError, ReflectiveKey.chainEntry,
      JsError.hasAddKey, JsError.addKey]

/-- Witness for C7 at concrete tokens, message and stack. -/
theorem c7_witness :
    injectorGet 12 (throwState (.obj 1 "T") "boom" "stack0") 0 (.obj 1 "T") none =
      .err (.instantiation "boom" "stack0" [(1, "T")]) (throwStateN (.obj 1 "T") "boom" "stack0" 1) :=
  (c7_instantiation_error_wrapping (.obj 1 "T") (.obj 2 "A") (.obj 3 "B") "boom" "stack0"
    (by decide) (by decide) (by decide) (by decide)).1

/-! ### C8 — atomicity of `get` with respect to the cache slot -/

/-- C8 (amended), proved.  First conjunct: a failing `get` leaves the
target provider's cache slot unconstructed — only the construction
counter has moved (the final state is the same container with counter
`1` and the slot still `unconstructed`).  Second conjunct: the next
`get` re-runs the same failing factory and fails identically (counter
`2`, slot still unconstructed).  Third conjunct: the retries are *not*
unbounded with the same outcome — the construction counter is never
reset, so on this one-provider container the third `get` (counter `2`,
exceeding the single slot) fails with `CyclicDependencyError` without
re-running the factory (the error carries no factory message or stack;
the slot stays unconstructed and only the counter moves).  Fourth
conjunct: a succeeding `get` fully succeeds and caches the result in
the slot. -/
theorem c8_get_atomicity (t : Token) (m st : String) (v : Value) (h0 : t ≠ injectorToken) :
    injectorGet 12 (throwState t m st) 0 t none =
      .err (.instantiation m st [(1, stringify t)]) (throwStateN t m st 1) ∧
    injectorGet 12 (throwStateN t m st 1) 0 t none =
      .err (.instantiation m st [(1, stringify t)]) (throwStateN t m st 2) ∧
    injectorGet 12 (throwStateN t m st 2) 0 t none =
      .err (.cyclicDependency [(1, stringify t)]) (throwStateN t m st 3) ∧
    injectorGet 12 (valState t v) 0 t none = .ok (some v) (valStateAfter t v) := by
  refine ⟨?_, ?_, ?_, ?_⟩
  · simp [injectorGet, reflectiveKeyGet, KeyRegistry.get, KeyRegistry.find, throwState,
      throwStateN, throwProvider, oneTokenRegistry, fromResolvedProviders, blankState,
      initRegistry, classKey, defaultArg, h0, step, injectorKeyId, DIState.frame?,
      DIState.bumpCounter, findProvider, Frame.maxNumberOfObjects, FactoryFn.apply,
      instantiationError, ReflectiveKey.chainEntry, JsError.hasAddKey, JsError.addKey]
  · simp [injectorGet, reflectiveKeyGet, KeyRegistry.get, KeyRegistry.find, throwStateN,
      throwProvider, oneTokenRegistry, initRegistry, classKey, defaultArg, h0, step,
      injectorKeyId, DIState.frame?, DIState.bumpCounter, findProvider,
      Frame.maxNumberOfObjects, FactoryFn.apply, instantiationError,
      ReflectiveKey.chainEntry, JsError.hasAddKey, JsError.addKey]
  · simp [injectorGet, reflectiveKeyGet, KeyRegistry.get, KeyRegistry.find, throwStateN,
      throwProvider, oneTokenRegistry, initRegistry, classKey, defaultArg, h0, step,
      injectorKeyId, DIState.frame?, DIState.bumpCounter, findProvider,
      Frame.maxNumberOfObjects, cyclicDependencyError, ReflectiveKey.chainEntry]
  · simp [injectorGet, reflectiveKeyGet, KeyRegistry.get, KeyRegistry.find, valState,
      valStateAfter, valProvider, oneTokenRegistry, initRegistry, classKey, defaultArg,
      h0, step, injectorKeyId, DIState.frame?, DIState.setSlot, DIState.bumpCounter,
      findProvider, Frame.maxNumberOfObjects, FactoryFn.apply]

/-- C8, counterexample (closed).  On the one-provider container whose
factory throws, the first two `get` calls re-ran the failing factory,
but the *third* `get` (construction counter at `2`, exceeding the
single provider slot) fails with `CyclicDependencyError` — an error of
a different kind from the factory's `InstantiationError`, raised by the
never-reset construction-counter guard before the factory can run —
refuting the claim that *every* subsequent `get` re-runs the same
failing factory with the same outcome. -/
theorem c8_counterexample :
    injectorGet 12 (throwStateN (.obj 1 "T") "boom" "stk" 2) 0 (.obj 1 "T") none =
      .err (.cyclicDependency [(1, "T")]) (throwStateN (.obj 1 "T") "boom" "stk" 3) ∧
    JsError.cyclicDependency [(1, "T")] ≠ JsError.instantiation "boom" "stk" [(1, "T")] :=
  ⟨rfl, by decide⟩

/-- Witness for C8 at a concrete token: the first retry re-runs the
factory, the second retry hits the counter guard instead. -/
theorem c8_witness :
    injectorGet 12 (throwState (.obj 1 "T") "oops" "stk") 0 (.obj 1 "T") none =
      .err (.instantiation "oops" "stk" [(1, "T")]) (throwStateN (.obj 1 "T") "oops" "stk" 1) ∧
    injectorGet 12 (throwStateN (.obj 1 "T") "oops" "stk" 1) 0 (.obj 1 "T") none =
      .err (.instantiation "oops" "stk" [(1, "T")]) (throwStateN (.obj 1 "T") "oops" "stk" 2) ∧
    injectorGet 12 (throwStateN (.obj 1 "T") "oops" "stk" 2) 0 (.obj 1 "T") none =
      .err (.cyclicDependency [(1, "T")]) (throwStateN (.obj 1 "T") "oops" "stk" 3) :=
  ⟨(c8_get_atomicity (.obj 1 "T") "oops" "stk" .nullV (by decide)).1,
   (c8_get_atomicity (.obj 1 "T") "oops" "stk" .nullV (by decide)).2.1,
   (c8_get_atomicity (.obj 1 "T") "oops" "stk" .nullV (by decide)).2.2.1⟩

/-! ### C10 — duplicate resolved providers: first slot wins -/

/-- C10, proved: on a container built by `fromResolvedProviders` from
two resolved providers with the same key id (accepted without any
error — the constructor is total and performs no validation), `get`
constructs and returns the instance of the first (lowest-index)
matching slot, and the final state shows the later duplicate slot still
unconstructed. -/
theorem c10_duplicate_first_slot_wins (t : Token) (v₁ v₂ : Value) (h0 : t ≠ injectorToken) :
    injectorGet 12 (dupState t v₁ v₂) 0 t none = .ok (some v₁) (dupAfter t v₁ v₂) := by
  simp [injectorGet, reflectiveKeyGet, KeyRegistry.get, KeyRegistry.find, dupState,
    dupAfter, oneTokenRegistry, fromResolvedProviders, blankState, initRegistry, classKey,
    defaultArg, h0, step, injectorKeyId, DIState.frame?, DIState.setSlot,
    DIState.bumpCounter, findProvider, Frame.maxNumberOfObjects, FactoryFn.apply]

/-- Witness for C10 at a concrete token and two distinct values. -/
theorem c10_witness :
    injectorGet 12 (dupState (.obj 1 "D") (.numV 1) (.numV 2)) 0 (.obj 1 "D") none =
      .ok (some (.numV 1)) (dupAfter (.obj 1 "D") (.numV 1) (.numV 2)) :=
  c10_duplicate_first_slot_wins (.obj 1 "D") (.numV 1) (.numV 2) (by decide)

end InjectionJs
